import Mathlib

/-!
Verification of core components of the sonora audio-processing pipeline.

Rust `f32` fields are modelled by `F32` (a rational value, or one of the
special values NaN / +inf / -inf) where NaN handling matters, and by exact
rationals (`ℚ`) elsewhere; `usize` by `ℕ`; `i32` by `ℤ`.  Arithmetic is
exact: rounding of `f32` operations is not modelled.

Components covered:
 * `EchoCanceller3Config::validate` (crates/sonora-aec3/src/config.rs)
 * `SubbandErleEstimator` (crates/sonora-aec3/src/subband_erle_estimator.rs)
 * `HmmTransparentMode` (crates/sonora-aec3/src/transparent_mode.rs)
 * `ComfortNoiseGenerator` (crates/sonora-aec3/src/comfort_noise_generator.rs)
 * `compute_erl` (crates/sonora-aec3/src/adaptive_fir_filter_erl.rs)
 * `SpeechProbabilityEstimator` (crates/sonora-ns/src/speech_probability_estimator.rs)
-/

namespace Aec3

/-- Minimum of two rationals, written so that kernel reduction (for
`decide`) does not get stuck on type-class indirection. -/
def qmin (a b : ℚ) : ℚ := if a ≤ b then a else b

/-- Maximum of two rationals; see `qmin`. -/
def qmax (a b : ℚ) : ℚ := if a ≤ b then b else a

/-- Model of a Rust `f32` value: NaN, one of the two infinities, or a finite
value represented exactly as a rational. -/
inductive F32 where
  | nan : F32
  | inf : F32
  | ninf : F32
  | fin (q : ℚ) : F32
deriving DecidableEq, Repr

namespace F32

/-- Corresponds to `f32::is_finite`. -/
def isFinite : F32 → Bool
  | .fin _ => true
  | _ => false

/-- Rust `f32` equality (`==`): NaN compares unequal to everything,
including itself.  (`-0.0 == 0.0` needs no special case because the model
has a single rational zero.) -/
def feq : F32 → F32 → Bool
  | .fin a, .fin b => a == b
  | .inf, .inf => true
  | .ninf, .ninf => true
  | _, _ => false

/-- Rust `f32::clamp(lo, hi)` for finite rational bounds `lo ≤ hi`:
NaN propagates, `+inf` clamps to `hi`, `-inf` clamps to `lo`. -/
def clampF : F32 → ℚ → ℚ → F32
  | .nan, _, _ => .nan
  | .inf, _, hi => .fin hi
  | .ninf, lo, _ => .fin lo
  | .fin q, lo, hi => .fin (qmax lo (qmin hi q))

/-- Rust `f32` strict greater-than; any comparison involving NaN is false. -/
def fgt : F32 → F32 → Bool
  | .fin a, .fin b => a > b
  | .inf, .fin _ => true
  | .inf, .ninf => true
  | .fin _, .ninf => true
  | _, _ => false

/-- Rust `f32::min`; if one operand is NaN the other is returned. -/
def fmin : F32 → F32 → F32
  | .nan, b => b
  | .inf, .nan => .inf
  | .inf, b => b
  | .ninf, _ => .ninf
  | .fin a, .nan => .fin a
  | .fin _, .ninf => .ninf
  | .fin a, .inf => .fin a
  | .fin a, .fin b => .fin (qmin a b)

/-- Predicate: the value is finite and lies in `[lo, hi]`. -/
def inR : F32 → ℚ → ℚ → Prop
  | .fin q, lo, hi => lo ≤ q ∧ q ≤ hi
  | _, _, _ => False

instance : ∀ (v : F32) (lo hi : ℚ), Decidable (v.inR lo hi)
  | .fin _, _, _ => inferInstanceAs (Decidable (_ ∧ _))
  | .nan, _, _ => inferInstanceAs (Decidable False)
  | .inf, _, _ => inferInstanceAs (Decidable False)
  | .ninf, _, _ => inferInstanceAs (Decidable False)

/-- Predicate: both values are finite and the first is `≤` the second. -/
def leF : F32 → F32 → Prop
  | .fin a, .fin b => a ≤ b
  | _, _ => False

instance : ∀ (a b : F32), Decidable (a.leF b)
  | .fin _, .fin _ => inferInstanceAs (Decidable (_ ≤ _))
  | .nan, .nan => inferInstanceAs (Decidable False)
  | .nan, .inf => inferInstanceAs (Decidable False)
  | .nan, .ninf => inferInstanceAs (Decidable False)
  | .nan, .fin _ => inferInstanceAs (Decidable False)
  | .inf, .nan => inferInstanceAs (Decidable False)
  | .inf, .inf => inferInstanceAs (Decidable False)
  | .inf, .ninf => inferInstanceAs (Decidable False)
  | .inf, .fin _ => inferInstanceAs (Decidable False)
  | .ninf, .nan => inferInstanceAs (Decidable False)
  | .ninf, .inf => inferInstanceAs (Decidable False)
  | .ninf, .ninf => inferInstanceAs (Decidable False)
  | .ninf, .fin _ => inferInstanceAs (Decidable False)
  | .fin _, .nan => inferInstanceAs (Decidable False)
  | .fin _, .inf => inferInstanceAs (Decidable False)
  | .fin _, .ninf => inferInstanceAs (Decidable False)

end F32

/-- Embedding of `limit_f32` (config.rs): clamp into `[lo, hi]`, replace a
non-finite result by `lo`, and report whether the value was unchanged. -/
def limit_f32 (v : F32) (lo hi : ℚ) : F32 × Bool :=
  let c := v.clampF lo hi
  let c := if c.isFinite then c else .fin lo
  (c, v.feq c)

/-- Embedding of `limit_usize` (config.rs). -/
def limit_usize (v lo hi : ℕ) : ℕ × Bool :=
  let c := max lo (min hi v)
  (c, v == c)

/-- Embedding of `limit_i32` (config.rs). -/
def limit_i32 (v lo hi : ℤ) : ℤ × Bool :=
  let c := max lo (min hi v)
  (c, v == c)

/-- Embedding of `floor_limit_usize` (config.rs). -/
def floor_limit_usize (v lo : ℕ) : ℕ × Bool :=
  if v < lo then (lo, false) else (v, true)

/-- Render buffer excess detection settings (config.rs `Buffering`). -/
structure Buffering where
  excess_render_detection_interval_blocks : ℕ
  max_allowed_excess_render_blocks : ℕ
deriving DecidableEq, Repr

/-- Thresholds for delay estimator convergence (config.rs
`DelaySelectionThresholds`). -/
structure DelaySelectionThresholds where
  initial : ℤ
  converged : ℤ
deriving DecidableEq, Repr

/-- Multichannel alignment mixing strategy (config.rs `AlignmentMixing`). -/
structure AlignmentMixing where
  downmix : Bool
  adaptive_selection : Bool
  activity_power_threshold : F32
  prefer_first_two_channels : Bool
deriving DecidableEq, Repr

/-- Delay estimation and alignment parameters (config.rs `Delay`). -/
structure Delay where
  default_delay : ℕ
  down_sampling_factor : ℕ
  num_filters : ℕ
  delay_headroom_samples : ℕ
  hysteresis_limit_blocks : ℕ
  fixed_capture_delay_samples : ℕ
  delay_estimate_smoothing : F32
  delay_estimate_smoothing_delay_found : F32
  delay_candidate_detection_threshold : F32
  delay_selection_thresholds : DelaySelectionThresholds
  use_external_delay_estimator : Bool
  log_warning_on_delay_changes : Bool
  render_alignment_mixing : AlignmentMixing
  capture_alignment_mixing : AlignmentMixing
  detect_pre_echo : Bool
deriving DecidableEq, Repr

/-- Refined adaptive filter configuration (config.rs
`RefinedConfiguration`). -/
structure RefinedConfiguration where
  length_blocks : ℕ
  leakage_converged : F32
  leakage_diverged : F32
  error_floor : F32
  error_ceil : F32
  noise_gate : F32
deriving DecidableEq, Repr

/-- Coarse adaptive filter configuration (config.rs
`CoarseConfiguration`). -/
structure CoarseConfiguration where
  length_blocks : ℕ
  rate : F32
  noise_gate : F32
deriving DecidableEq, Repr

/-- Adaptive filter adaptation settings (config.rs `Filter`). -/
structure FilterCfg where
  refined : RefinedConfiguration
  coarse : CoarseConfiguration
  refined_initial : RefinedConfiguration
  coarse_initial : CoarseConfiguration
  config_change_duration_blocks : ℕ
  initial_state_seconds : F32
  coarse_reset_hangover_blocks : ℤ
  conservative_initial_phase : Bool
  enable_coarse_filter_output_usage : Bool
  use_linear_filter : Bool
  high_pass_filter_echo_reference : Bool
  export_linear_aec_output : Bool
deriving DecidableEq, Repr

/-- ERLE estimation parameters (config.rs `Erle`). -/
structure Erle where
  min : F32
  max_l : F32
  max_h : F32
  onset_detection : Bool
  num_sections : ℕ
  clamp_quality_estimate_to_zero : Bool
  clamp_quality_estimate_to_one : Bool
deriving DecidableEq, Repr

/-- Echo path strength parameters (config.rs `EpStrength`). -/
structure EpStrength where
  default_gain : F32
  default_len : F32
  nearend_len : F32
  echo_can_saturate : Bool
  bounded_erl : Bool
  erle_onset_compensation_in_dominant_nearend : Bool
  use_conservative_tail_frequency_response : Bool
deriving DecidableEq, Repr

/-- Echo audibility detection parameters (config.rs `EchoAudibility`). -/
structure EchoAudibility where
  low_render_limit : F32
  normal_render_limit : F32
  floor_power : F32
  audibility_threshold_lf : F32
  audibility_threshold_mf : F32
  audibility_threshold_hf : F32
  use_stationarity_properties : Bool
  use_stationarity_properties_at_init : Bool
deriving DecidableEq, Repr

/-- Render signal level thresholds (config.rs `RenderLevels`). -/
structure RenderLevels where
  active_render_limit : F32
  poor_excitation_render_limit : F32
  poor_excitation_render_limit_ds8 : F32
  render_power_gain_db : F32
deriving DecidableEq, Repr

/-- Transparent-mode algorithm selector (config.rs `TransparentModeType`). -/
inductive TransparentModeType where
  | legacy : TransparentModeType
  | hmm : TransparentModeType
deriving DecidableEq, Repr

/-- Echo removal control settings (config.rs `EchoRemovalControl`). -/
structure EchoRemovalControl where
  has_clock_drift : Bool
  linear_and_stable_echo_path : Bool
  transparent_mode : TransparentModeType
deriving DecidableEq, Repr

/-- Echo and noise model parameters (config.rs `EchoModel`). -/
structure EchoModel where
  noise_floor_hold : ℕ
  min_noise_floor_power : F32
  stationary_gate_slope : F32
  noise_gate_power : F32
  noise_gate_slope : F32
  render_pre_window_size : ℕ
  render_post_window_size : ℕ
  model_reverb_in_nonlinear_mode : Bool
deriving DecidableEq, Repr

/-- Comfort noise generation settings (config.rs `ComfortNoise`). -/
structure ComfortNoiseCfg where
  noise_floor_dbfs : F32
deriving DecidableEq, Repr

/-- Suppression masking thresholds (config.rs `MaskingThresholds`). -/
structure MaskingThresholds where
  enr_transparent : F32
  enr_suppress : F32
  emr_transparent : F32
deriving DecidableEq, Repr

/-- Suppressor tuning (config.rs `Tuning`). -/
structure Tuning where
  mask_lf : MaskingThresholds
  mask_hf : MaskingThresholds
  max_inc_factor : F32
  max_dec_factor_lf : F32
deriving DecidableEq, Repr

/-- Dominant nearend detection parameters (config.rs
`DominantNearendDetection`). -/
structure DominantNearendDetection where
  enr_threshold : F32
  enr_exit_threshold : F32
  snr_threshold : F32
  hold_duration : ℤ
  trigger_threshold : ℤ
  use_during_initial_phase : Bool
  use_unbounded_echo_spectrum : Bool
deriving DecidableEq, Repr

/-- Frequency subband range (config.rs `SubbandRegion`). -/
structure SubbandRegion where
  low : ℕ
  high : ℕ
deriving DecidableEq, Repr

/-- Subband nearend detection parameters (config.rs
`SubbandNearendDetection`). -/
structure SubbandNearendDetection where
  nearend_average_blocks : ℕ
  subband1 : SubbandRegion
  subband2 : SubbandRegion
  nearend_threshold : F32
  snr_threshold : F32
deriving DecidableEq, Repr

/-- High-band suppression settings (config.rs `HighBandsSuppression`). -/
structure HighBandsSuppression where
  enr_threshold : F32
  max_gain_during_echo : F32
  anti_howling_activation_threshold : F32
  anti_howling_gain : F32
deriving DecidableEq, Repr

/-- HF gain limiting parameters (config.rs `HighFrequencySuppression`). -/
structure HighFrequencySuppression where
  limiting_gain_band : ℤ
  bands_in_limiting_gain : ℤ
deriving DecidableEq, Repr

/-- Top-level suppressor configuration (config.rs `Suppressor`). -/
structure Suppressor where
  nearend_average_blocks : ℕ
  normal_tuning : Tuning
  nearend_tuning : Tuning
  lf_smoothing_during_initial_phase : Bool
  last_permanent_lf_smoothing_band : ℤ
  last_lf_smoothing_band : ℤ
  last_lf_band : ℤ
  first_hf_band : ℤ
  dominant_nearend_detection : DominantNearendDetection
  subband_nearend_detection : SubbandNearendDetection
  use_subband_nearend_detection : Bool
  high_bands_suppression : HighBandsSuppression
  high_frequency_suppression : HighFrequencySuppression
  floor_first_increase : F32
  conservative_hf_suppression : Bool
deriving DecidableEq, Repr

/-- Multichannel detection settings (config.rs `MultiChannel`). -/
structure MultiChannel where
  detect_stereo_content : Bool
  stereo_detection_threshold : F32
  stereo_detection_timeout_threshold_seconds : ℤ
  stereo_detection_hysteresis_seconds : F32
deriving DecidableEq, Repr

/-- The AEC3 configuration (config.rs `EchoCanceller3Config`). -/
structure EchoCanceller3Config where
  buffering : Buffering
  delay : Delay
  filter : FilterCfg
  erle : Erle
  ep_strength : EpStrength
  echo_audibility : EchoAudibility
  render_levels : RenderLevels
  echo_removal_control : EchoRemovalControl
  echo_model : EchoModel
  comfort_noise : ComfortNoiseCfg
  suppressor : Suppressor
  multi_channel : MultiChannel
deriving DecidableEq, Repr

/-- Default configuration values (config.rs `Default` impls).  Non-integer
decimal literals are written with `mkRat` (exact values) because `ℚ`
literal notation does not reduce in the kernel. -/
def defaultConfig : EchoCanceller3Config where
  buffering := ⟨250, 8⟩
  delay :=
    ⟨5, 4, 5, 32, 1, 0, .fin (mkRat 7 10), .fin (mkRat 7 10),
     .fin (mkRat 1 5), ⟨5, 20⟩, false, false,
     ⟨false, true, .fin 10000, true⟩, ⟨false, true, .fin 10000, false⟩, true⟩
  filter :=
    ⟨⟨13, .fin (mkRat 1 20000), .fin (mkRat 1 20), .fin (mkRat 1 1000),
      .fin 2, .fin 20075344⟩,
     ⟨13, .fin (mkRat 7 10), .fin 20075344⟩,
     ⟨12, .fin (mkRat 1 200), .fin (mkRat 1 2), .fin (mkRat 1 1000),
      .fin 2, .fin 20075344⟩,
     ⟨12, .fin (mkRat 9 10), .fin 20075344⟩,
     250, .fin (mkRat 5 2), 25, false, true, true, false, false⟩
  erle := ⟨.fin 1, .fin 4, .fin (mkRat 3 2), true, 1, true, true⟩
  ep_strength :=
    ⟨.fin 1, .fin (mkRat 83 100), .fin (mkRat 83 100), true, false, false,
     true⟩
  echo_audibility :=
    ⟨.fin 256, .fin 64, .fin 128, .fin 10, .fin 10, .fin 10,
     false, false⟩
  render_levels := ⟨.fin 100, .fin 150, .fin 20, .fin 0⟩
  echo_removal_control := ⟨false, false, .legacy⟩
  echo_model :=
    ⟨50, .fin 1638400, .fin 10, .fin (mkRat 1375471 50), .fin (mkRat 3 10),
     1, 1, true⟩
  comfort_noise := ⟨.fin (mkRat (-4801703) 50000)⟩
  suppressor :=
    ⟨4,
     ⟨⟨.fin (mkRat 3 10), .fin (mkRat 2 5), .fin (mkRat 3 10)⟩,
      ⟨.fin (mkRat 7 100), .fin (mkRat 1 10), .fin (mkRat 3 10)⟩,
      .fin 2, .fin (mkRat 1 4)⟩,
     ⟨⟨.fin (mkRat 109 100), .fin (mkRat 11 10), .fin (mkRat 3 10)⟩,
      ⟨.fin (mkRat 1 10), .fin (mkRat 3 10), .fin (mkRat 3 10)⟩,
      .fin 2, .fin (mkRat 1 4)⟩,
     true, 0, 5, 5, 8,
     ⟨.fin (mkRat 1 4), .fin 10, .fin 30, 50, 12, true, true⟩,
     ⟨1, ⟨1, 1⟩, ⟨1, 1⟩, .fin 1, .fin 1⟩,
     false,
     ⟨.fin 1, .fin 1, .fin 400, .fin 1⟩,
     ⟨16, 1⟩,
     .fin (mkRat 1 100000), false⟩
  multi_channel := ⟨true, .fin 0, 300, .fin 2⟩

/-- Embedding of `validate_tuning` (config.rs). -/
def validate_tuning (t : Tuning) : Tuning × Bool :=
  let a1 := limit_f32 t.mask_lf.enr_transparent 0 100
  let a2 := limit_f32 t.mask_lf.enr_suppress 0 100
  let a3 := limit_f32 t.mask_lf.emr_transparent 0 100
  let b1 := limit_f32 t.mask_hf.enr_transparent 0 100
  let b2 := limit_f32 t.mask_hf.enr_suppress 0 100
  let b3 := limit_f32 t.mask_hf.emr_transparent 0 100
  let mi := limit_f32 t.max_inc_factor 0 100
  let md := limit_f32 t.max_dec_factor_lf 0 100
  (⟨⟨a1.1, a2.1, a3.1⟩, ⟨b1.1, b2.1, b3.1⟩, mi.1, md.1⟩,
   a1.2 && a2.2 && a3.2 && b1.2 && b2.2 && b3.2 && mi.2 && md.2)

/-- Embedding of `EchoCanceller3Config::validate` (config.rs lines 42-304).
Returns the clamped configuration paired with the `ok` flag (`true` when no
change was needed).  Steps follow the source order; later steps read values
already updated by earlier steps, exactly as the in-place Rust code does. -/
def EchoCanceller3Config.validate (c : EchoCanceller3Config) :
    EchoCanceller3Config × Bool :=
  let dsf : ℕ × Bool :=
    if c.delay.down_sampling_factor ≠ 4 ∧ c.delay.down_sampling_factor ≠ 8 then
      (4, false)
    else (c.delay.down_sampling_factor, true)
  let dd := limit_usize c.delay.default_delay 0 5000
  let nf := limit_usize c.delay.num_filters 0 5000
  let dhs := limit_usize c.delay.delay_headroom_samples 0 5000
  let hlb := limit_usize c.delay.hysteresis_limit_blocks 0 5000
  let fcds := limit_usize c.delay.fixed_capture_delay_samples 0 5000
  let des := limit_f32 c.delay.delay_estimate_smoothing 0 1
  let dcdt := limit_f32 c.delay.delay_candidate_detection_threshold 0 1
  let dsti := limit_i32 c.delay.delay_selection_thresholds.initial 1 250
  let dstc := limit_i32 c.delay.delay_selection_thresholds.converged 1 250
  let rlb := floor_limit_usize c.filter.refined.length_blocks 1
  let rlc := limit_f32 c.filter.refined.leakage_converged 0 1000
  let rld := limit_f32 c.filter.refined.leakage_diverged 0 1000
  let ref := limit_f32 c.filter.refined.error_floor 0 1000
  let rec' := limit_f32 c.filter.refined.error_ceil 0 100000000
  let rng := limit_f32 c.filter.refined.noise_gate 0 100000000
  let rilb := floor_limit_usize c.filter.refined_initial.length_blocks 1
  let rilc := limit_f32 c.filter.refined_initial.leakage_converged 0 1000
  let rild := limit_f32 c.filter.refined_initial.leakage_diverged 0 1000
  let rief := limit_f32 c.filter.refined_initial.error_floor 0 1000
  let riec := limit_f32 c.filter.refined_initial.error_ceil 0 100000000
  let ring := limit_f32 c.filter.refined_initial.noise_gate 0 100000000
  let riAdj : ℕ × Bool :=
    if rlb.1 < rilb.1 then (rlb.1, false) else (rilb.1, true)
  let clb := floor_limit_usize c.filter.coarse.length_blocks 1
  let crate := limit_f32 c.filter.coarse.rate 0 1
  let cng := limit_f32 c.filter.coarse.noise_gate 0 100000000
  let cilb := floor_limit_usize c.filter.coarse_initial.length_blocks 1
  let cirate := limit_f32 c.filter.coarse_initial.rate 0 1
  let cing := limit_f32 c.filter.coarse_initial.noise_gate 0 100000000
  let ciAdj : ℕ × Bool :=
    if clb.1 < cilb.1 then (clb.1, false) else (cilb.1, true)
  let ccdb := limit_usize c.filter.config_change_duration_blocks 0 100000
  let iss := limit_f32 c.filter.initial_state_seconds 0 100
  let crhb := limit_i32 c.filter.coarse_reset_hangover_blocks 0 250000
  let emin := limit_f32 c.erle.min 1 100000
  let emaxl := limit_f32 c.erle.max_l 1 100000
  let emaxh := limit_f32 c.erle.max_h 1 100000
  let eminAdj : F32 × Bool :=
    if emin.1.fgt emaxl.1 ∨ emin.1.fgt emaxh.1 then
      (emaxl.1.fmin emaxh.1, false)
    else (emin.1, true)
  let ens := limit_usize c.erle.num_sections 1 rlb.1
  let epdg := limit_f32 c.ep_strength.default_gain 0 1000000
  let epdl := limit_f32 c.ep_strength.default_len (-1) 1
  let epnl := limit_f32 c.ep_strength.nearend_len (-1) 1
  let maxPower : ℚ := 1073741824
  let ealr := limit_f32 c.echo_audibility.low_render_limit 0 maxPower
  let eanr := limit_f32 c.echo_audibility.normal_render_limit 0 maxPower
  let eafp := limit_f32 c.echo_audibility.floor_power 0 maxPower
  let eatlf := limit_f32 c.echo_audibility.audibility_threshold_lf 0 maxPower
  let eatmf := limit_f32 c.echo_audibility.audibility_threshold_mf 0 maxPower
  let eathf := limit_f32 c.echo_audibility.audibility_threshold_hf 0 maxPower
  let rlar := limit_f32 c.render_levels.active_render_limit 0 maxPower
  let rlpe := limit_f32 c.render_levels.poor_excitation_render_limit 0 maxPower
  let rlpe8 := limit_f32 c.render_levels.poor_excitation_render_limit_ds8 0 maxPower
  let emnfh := limit_usize c.echo_model.noise_floor_hold 0 1000
  let emmnf := limit_f32 c.echo_model.min_noise_floor_power 0 2000000
  let emsgs := limit_f32 c.echo_model.stationary_gate_slope 0 1000000
  let emngp := limit_f32 c.echo_model.noise_gate_power 0 1000000
  let emngs := limit_f32 c.echo_model.noise_gate_slope 0 1000000
  let emrpre := limit_usize c.echo_model.render_pre_window_size 0 100
  let emrpost := limit_usize c.echo_model.render_post_window_size 0 100
  let cnf := limit_f32 c.comfort_noise.noise_floor_dbfs (-200) 0
  let snab := limit_usize c.suppressor.nearend_average_blocks 1 5000
  let tn := validate_tuning c.suppressor.normal_tuning
  let tne := validate_tuning c.suppressor.nearend_tuning
  let slpls := limit_i32 c.suppressor.last_permanent_lf_smoothing_band 0 64
  let slls := limit_i32 c.suppressor.last_lf_smoothing_band 0 64
  let sllb := limit_i32 c.suppressor.last_lf_band 0 63
  let sfhb := limit_i32 c.suppressor.first_hf_band (sllb.1 + 1) 64
  let dnet := limit_f32 c.suppressor.dominant_nearend_detection.enr_threshold 0 1000000
  let dnst := limit_f32 c.suppressor.dominant_nearend_detection.snr_threshold 0 1000000
  let dnhd := limit_i32 c.suppressor.dominant_nearend_detection.hold_duration 0 10000
  let dntt := limit_i32 c.suppressor.dominant_nearend_detection.trigger_threshold 0 10000
  let sbnab := limit_usize c.suppressor.subband_nearend_detection.nearend_average_blocks 1 1024
  let sb1l := limit_usize c.suppressor.subband_nearend_detection.subband1.low 0 65
  let sb1h := limit_usize c.suppressor.subband_nearend_detection.subband1.high sb1l.1 65
  let sb2l := limit_usize c.suppressor.subband_nearend_detection.subband2.low 0 65
  let sb2h := limit_usize c.suppressor.subband_nearend_detection.subband2.high sb2l.1 65
  let sbnt := limit_f32 c.suppressor.subband_nearend_detection.nearend_threshold 0 (1000000000000000000000000 : ℚ)
  let sbst := limit_f32 c.suppressor.subband_nearend_detection.snr_threshold 0 (1000000000000000000000000 : ℚ)
  let hbet := limit_f32 c.suppressor.high_bands_suppression.enr_threshold 0 1000000
  let hbmg := limit_f32 c.suppressor.high_bands_suppression.max_gain_during_echo 0 1
  let hbaht := limit_f32 c.suppressor.high_bands_suppression.anti_howling_activation_threshold 0 maxPower
  let hbahg := limit_f32 c.suppressor.high_bands_suppression.anti_howling_gain 0 1
  let hflgb := limit_i32 c.suppressor.high_frequency_suppression.limiting_gain_band 1 64
  let hfblg := limit_i32 c.suppressor.high_frequency_suppression.bands_in_limiting_gain 0 (64 - hflgb.1)
  let sffi := limit_f32 c.suppressor.floor_first_increase 0 1000000
  (⟨c.buffering,
    ⟨dd.1, dsf.1, nf.1, dhs.1, hlb.1, fcds.1, des.1,
     c.delay.delay_estimate_smoothing_delay_found, dcdt.1,
     ⟨dsti.1, dstc.1⟩,
     c.delay.use_external_delay_estimator,
     c.delay.log_warning_on_delay_changes,
     c.delay.render_alignment_mixing,
     c.delay.capture_alignment_mixing,
     c.delay.detect_pre_echo⟩,
    ⟨⟨rlb.1, rlc.1, rld.1, ref.1, rec'.1, rng.1⟩,
     ⟨clb.1, crate.1, cng.1⟩,
     ⟨riAdj.1, rilc.1, rild.1, rief.1, riec.1, ring.1⟩,
     ⟨ciAdj.1, cirate.1, cing.1⟩,
     ccdb.1, iss.1, crhb.1,
     c.filter.conservative_initial_phase,
     c.filter.enable_coarse_filter_output_usage,
     c.filter.use_linear_filter,
     c.filter.high_pass_filter_echo_reference,
     c.filter.export_linear_aec_output⟩,
    ⟨eminAdj.1, emaxl.1, emaxh.1, c.erle.onset_detection, ens.1,
     c.erle.clamp_quality_estimate_to_zero,
     c.erle.clamp_quality_estimate_to_one⟩,
    ⟨epdg.1, epdl.1, epnl.1,
     c.ep_strength.echo_can_saturate,
     c.ep_strength.bounded_erl,
     c.ep_strength.erle_onset_compensation_in_dominant_nearend,
     c.ep_strength.use_conservative_tail_frequency_response⟩,
    ⟨ealr.1, eanr.1, eafp.1, eatlf.1, eatmf.1, eathf.1,
     c.echo_audibility.use_stationarity_properties,
     c.echo_audibility.use_stationarity_properties_at_init⟩,
    ⟨rlar.1, rlpe.1, rlpe8.1, c.render_levels.render_power_gain_db⟩,
    c.echo_removal_control,
    ⟨emnfh.1, emmnf.1, emsgs.1, emngp.1, emngs.1, emrpre.1, emrpost.1,
     c.echo_model.model_reverb_in_nonlinear_mode⟩,
    ⟨cnf.1⟩,
    ⟨snab.1, tn.1, tne.1,
     c.suppressor.lf_smoothing_during_initial_phase,
     slpls.1, slls.1, sllb.1, sfhb.1,
     ⟨dnet.1, c.suppressor.dominant_nearend_detection.enr_exit_threshold,
      dnst.1, dnhd.1, dntt.1,
      c.suppressor.dominant_nearend_detection.use_during_initial_phase,
      c.suppressor.dominant_nearend_detection.use_unbounded_echo_spectrum⟩,
     ⟨sbnab.1, ⟨sb1l.1, sb1h.1⟩, ⟨sb2l.1, sb2h.1⟩, sbnt.1, sbst.1⟩,
     c.suppressor.use_subband_nearend_detection,
     ⟨hbet.1, hbmg.1, hbaht.1, hbahg.1⟩,
     ⟨hflgb.1, hfblg.1⟩,
     sffi.1,
     c.suppressor.conservative_hf_suppression⟩,
    c.multi_channel⟩,
   dsf.2 && dd.2 && nf.2 && dhs.2 && hlb.2 && fcds.2 && des.2 && dcdt.2 &&
   dsti.2 && dstc.2 && rlb.2 && rlc.2 && rld.2 && ref.2 && rec'.2 && rng.2 &&
   rilb.2 && rilc.2 && rild.2 && rief.2 && riec.2 && ring.2 && riAdj.2 &&
   clb.2 && crate.2 && cng.2 && cilb.2 && cirate.2 && cing.2 && ciAdj.2 &&
   ccdb.2 && iss.2 && crhb.2 && emin.2 && emaxl.2 && emaxh.2 && eminAdj.2 &&
   ens.2 && epdg.2 && epdl.2 && epnl.2 && ealr.2 && eanr.2 && eafp.2 &&
   eatlf.2 && eatmf.2 && eathf.2 && rlar.2 && rlpe.2 && rlpe8.2 && emnfh.2 &&
   emmnf.2 && emsgs.2 && emngp.2 && emngs.2 && emrpre.2 && emrpost.2 &&
   cnf.2 && snab.2 && tn.2 && tne.2 && slpls.2 && slls.2 && sllb.2 && sfhb.2 &&
   dnet.2 && dnst.2 && dnhd.2 && dntt.2 && sbnab.2 && sb1l.2 && sb1h.2 &&
   sb2l.2 && sb2h.2 && sbnt.2 && sbst.2 && hbet.2 && hbmg.2 && hbaht.2 &&
   hbahg.2 && hflgb.2 && hfblg.2 && sffi.2)

/-- All delay parameters are within the ranges `validate` enforces. -/
def DelayValid (d : Delay) : Prop :=
  (d.down_sampling_factor = 4 ∨ d.down_sampling_factor = 8) ∧
  d.default_delay ≤ 5000 ∧
  d.num_filters ≤ 5000 ∧
  d.delay_headroom_samples ≤ 5000 ∧
  d.hysteresis_limit_blocks ≤ 5000 ∧
  d.fixed_capture_delay_samples ≤ 5000 ∧
  d.delay_estimate_smoothing.inR 0 1 ∧
  d.delay_candidate_detection_threshold.inR 0 1 ∧
  1 ≤ d.delay_selection_thresholds.initial ∧
  d.delay_selection_thresholds.initial ≤ 250 ∧
  1 ≤ d.delay_selection_thresholds.converged ∧
  d.delay_selection_thresholds.converged ≤ 250

/-- All adaptive-filter parameters are within the ranges and cross-field
invariants `validate` enforces. -/
def FilterValid (f : FilterCfg) : Prop :=
  1 ≤ f.refined.length_blocks ∧
  f.refined.leakage_converged.inR 0 1000 ∧
  f.refined.leakage_diverged.inR 0 1000 ∧
  f.refined.error_floor.inR 0 1000 ∧
  f.refined.error_ceil.inR 0 100000000 ∧
  f.refined.noise_gate.inR 0 100000000 ∧
  1 ≤ f.refined_initial.length_blocks ∧
  f.refined_initial.leakage_converged.inR 0 1000 ∧
  f.refined_initial.leakage_diverged.inR 0 1000 ∧
  f.refined_initial.error_floor.inR 0 1000 ∧
  f.refined_initial.error_ceil.inR 0 100000000 ∧
  f.refined_initial.noise_gate.inR 0 100000000 ∧
  f.refined_initial.length_blocks ≤ f.refined.length_blocks ∧
  1 ≤ f.coarse.length_blocks ∧
  f.coarse.rate.inR 0 1 ∧
  f.coarse.noise_gate.inR 0 100000000 ∧
  1 ≤ f.coarse_initial.length_blocks ∧
  f.coarse_initial.rate.inR 0 1 ∧
  f.coarse_initial.noise_gate.inR 0 100000000 ∧
  f.coarse_initial.length_blocks ≤ f.coarse.length_blocks ∧
  f.config_change_duration_blocks ≤ 100000 ∧
  f.initial_state_seconds.inR 0 100 ∧
  0 ≤ f.coarse_reset_hangover_blocks ∧
  f.coarse_reset_hangover_blocks ≤ 250000

/-- All ERLE parameters are within the ranges `validate` enforces;
`refined_lb` is the (already validated) refined filter length. -/
def ErleValid (e : Erle) (refined_lb : ℕ) : Prop :=
  e.min.inR 1 100000 ∧
  e.max_l.inR 1 100000 ∧
  e.max_h.inR 1 100000 ∧
  e.min.leF e.max_l ∧
  e.min.leF e.max_h ∧
  1 ≤ e.num_sections ∧
  e.num_sections ≤ refined_lb

/-- Echo-path-strength parameters are within range. -/
def EpStrengthValid (e : EpStrength) : Prop :=
  e.default_gain.inR 0 1000000 ∧
  e.default_len.inR (-1) 1 ∧
  e.nearend_len.inR (-1) 1

/-- Echo-audibility parameters are within range. -/
def EchoAudibilityValid (e : EchoAudibility) : Prop :=
  e.low_render_limit.inR 0 1073741824 ∧
  e.normal_render_limit.inR 0 1073741824 ∧
  e.floor_power.inR 0 1073741824 ∧
  e.audibility_threshold_lf.inR 0 1073741824 ∧
  e.audibility_threshold_mf.inR 0 1073741824 ∧
  e.audibility_threshold_hf.inR 0 1073741824

/-- Render-level parameters are within range. -/
def RenderLevelsValid (r : RenderLevels) : Prop :=
  r.active_render_limit.inR 0 1073741824 ∧
  r.poor_excitation_render_limit.inR 0 1073741824 ∧
  r.poor_excitation_render_limit_ds8.inR 0 1073741824

/-- Echo-model parameters are within range. -/
def EchoModelValid (e : EchoModel) : Prop :=
  e.noise_floor_hold ≤ 1000 ∧
  e.min_noise_floor_power.inR 0 2000000 ∧
  e.stationary_gate_slope.inR 0 1000000 ∧
  e.noise_gate_power.inR 0 1000000 ∧
  e.noise_gate_slope.inR 0 1000000 ∧
  e.render_pre_window_size ≤ 100 ∧
  e.render_post_window_size ≤ 100

/-- Tuning parameters are within range (mirrors `validate_tuning`). -/
def TuningValid (t : Tuning) : Prop :=
  t.mask_lf.enr_transparent.inR 0 100 ∧
  t.mask_lf.enr_suppress.inR 0 100 ∧
  t.mask_lf.emr_transparent.inR 0 100 ∧
  t.mask_hf.enr_transparent.inR 0 100 ∧
  t.mask_hf.enr_suppress.inR 0 100 ∧
  t.mask_hf.emr_transparent.inR 0 100 ∧
  t.max_inc_factor.inR 0 100 ∧
  t.max_dec_factor_lf.inR 0 100

/-- Suppressor parameters are within the ranges and cross-field invariants
`validate` enforces. -/
def SuppressorValid (s : Suppressor) : Prop :=
  1 ≤ s.nearend_average_blocks ∧
  s.nearend_average_blocks ≤ 5000 ∧
  TuningValid s.normal_tuning ∧
  TuningValid s.nearend_tuning ∧
  0 ≤ s.last_permanent_lf_smoothing_band ∧
  s.last_permanent_lf_smoothing_band ≤ 64 ∧
  0 ≤ s.last_lf_smoothing_band ∧
  s.last_lf_smoothing_band ≤ 64 ∧
  0 ≤ s.last_lf_band ∧
  s.last_lf_band ≤ 63 ∧
  s.last_lf_band + 1 ≤ s.first_hf_band ∧
  s.first_hf_band ≤ 64 ∧
  s.dominant_nearend_detection.enr_threshold.inR 0 1000000 ∧
  s.dominant_nearend_detection.snr_threshold.inR 0 1000000 ∧
  0 ≤ s.dominant_nearend_detection.hold_duration ∧
  s.dominant_nearend_detection.hold_duration ≤ 10000 ∧
  0 ≤ s.dominant_nearend_detection.trigger_threshold ∧
  s.dominant_nearend_detection.trigger_threshold ≤ 10000 ∧
  1 ≤ s.subband_nearend_detection.nearend_average_blocks ∧
  s.subband_nearend_detection.nearend_average_blocks ≤ 1024 ∧
  s.subband_nearend_detection.subband1.low ≤ 65 ∧
  s.subband_nearend_detection.subband1.low ≤
    s.subband_nearend_detection.subband1.high ∧
  s.subband_nearend_detection.subband1.high ≤ 65 ∧
  s.subband_nearend_detection.subband2.low ≤ 65 ∧
  s.subband_nearend_detection.subband2.low ≤
    s.subband_nearend_detection.subband2.high ∧
  s.subband_nearend_detection.subband2.high ≤ 65 ∧
  s.subband_nearend_detection.nearend_threshold.inR 0
    (1000000000000000000000000 : ℚ) ∧
  s.subband_nearend_detection.snr_threshold.inR 0
    (1000000000000000000000000 : ℚ) ∧
  s.high_bands_suppression.enr_threshold.inR 0 1000000 ∧
  s.high_bands_suppression.max_gain_during_echo.inR 0 1 ∧
  s.high_bands_suppression.anti_howling_activation_threshold.inR 0
    1073741824 ∧
  s.high_bands_suppression.anti_howling_gain.inR 0 1 ∧
  1 ≤ s.high_frequency_suppression.limiting_gain_band ∧
  s.high_frequency_suppression.limiting_gain_band ≤ 64 ∧
  0 ≤ s.high_frequency_suppression.bands_in_limiting_gain ∧
  s.high_frequency_suppression.bands_in_limiting_gain ≤
    64 - s.high_frequency_suppression.limiting_gain_band ∧
  s.floor_first_increase.inR 0 1000000

/-- A configuration on which `validate` is the identity: every clamped
field is inside its range and every cross-field invariant holds. -/
def EchoCanceller3Config.Valid (c : EchoCanceller3Config) : Prop :=
  DelayValid c.delay ∧
  FilterValid c.filter ∧
  ErleValid c.erle c.filter.refined.length_blocks ∧
  EpStrengthValid c.ep_strength ∧
  EchoAudibilityValid c.echo_audibility ∧
  RenderLevelsValid c.render_levels ∧
  EchoModelValid c.echo_model ∧
  c.comfort_noise.noise_floor_dbfs.inR (-200) 0 ∧
  SuppressorValid c.suppressor

/-- The S5 scenario of the spec: the default configuration with
`delay.down_sampling_factor = 3` and `erle.min = 200000`. -/
def s5Config : EchoCanceller3Config :=
  { defaultConfig with
    delay := { defaultConfig.delay with down_sampling_factor := 3 },
    erle := { defaultConfig.erle with min := .fin 200000 } }

/-! Subband ERLE estimator (subband_erle_estimator.rs).  Spectra are
modelled as functions `Fin 65 → ℚ` (FFT length 128, spectrum length 65,
spec section 3); per-channel arrays as `Fin nch → Fin 65 → ℚ`. -/

/-- Rust `f32::clamp(lo, hi)` on finite values, as used with rational
arguments (`update_erle_band` and related code). -/
def rclamp (x lo hi : ℚ) : ℚ := max lo (min hi x)

/-- Modelled from the spec: the crate-level constants module (`common.rs`)
is not under src/; the spec does not give `X2_BAND_ENERGY_THRESHOLD`, and
no theorem below depends on its value (the claims quantify over the render
spectrum). -/
def X2_BAND_ENERGY_THRESHOLD : ℚ := 44015068

/-- Modelled from the spec: `BLOCKS_TO_HOLD_ERLE` comes from the missing
`common.rs`; the spec mentions the hold window only qualitatively and no
theorem below depends on the value. -/
def BLOCKS_TO_HOLD_ERLE : ℤ := 100

/-- Constant from subband_erle_estimator.rs line 12. -/
def BLOCKS_FOR_ONSET_DETECTION : ℤ := BLOCKS_TO_HOLD_ERLE + 150

/-- Constant from subband_erle_estimator.rs line 13. -/
def POINTS_TO_ACCUMULATE : ℤ := 6

/-- Embedding of `set_max_erle_bands` (subband_erle_estimator.rs lines
15-20): the lower half of the bins (`[..FFT_LENGTH_BY_2 / 2]`, i.e. bins
0-31) gets `max_erle_l`, the rest `max_erle_h`. -/
def set_max_erle_bands (max_erle_l max_erle_h : ℚ) : Fin 65 → ℚ :=
  fun k => if (k : ℕ) < 32 then max_erle_l else max_erle_h

/-- The bins the loops `for k in 1..FFT_LENGTH_BY_2` visit: 1 ≤ k ≤ 63. -/
def interiorBin (k : Fin 65) : Prop := 1 ≤ (k : ℕ) ∧ (k : ℕ) < 64

instance (k : Fin 65) : Decidable (interiorBin k) :=
  inferInstanceAs (Decidable (_ ∧ _))

/-- One `update` call's inputs: render spectrum `x2`, per-channel capture
spectra `y2`, error spectra `e2`, and the converged flags. -/
structure ErleInput (nch : ℕ) where
  x2 : Fin 65 → ℚ
  y2 : Fin nch → Fin 65 → ℚ
  e2 : Fin nch → Fin 65 → ℚ
  converged_filters : Fin nch → Bool

/-- State of `SubbandErleEstimator` (subband_erle_estimator.rs), with the
`AccumulatedSpectra` struct inlined as the `accum_*` fields. -/
structure SubbandErleEstimator (nch : ℕ) where
  use_onset_detection : Bool
  min_erle : ℚ
  max_erle : Fin 65 → ℚ
  use_min_erle_during_onsets : Bool
  accum_y2 : Fin nch → Fin 65 → ℚ
  accum_e2 : Fin nch → Fin 65 → ℚ
  accum_low_render_energy : Fin nch → Fin 65 → Bool
  accum_num_points : Fin nch → ℤ
  erle : Fin nch → Fin 65 → ℚ
  erle_onset_compensated : Fin nch → Fin 65 → ℚ
  erle_unbounded : Fin nch → Fin 65 → ℚ
  erle_during_onsets : Fin nch → Fin 65 → ℚ
  coming_onset : Fin nch → Fin 65 → Bool
  hold_counters : Fin nch → Fin 65 → ℤ

/-- Embedding of `SubbandErleEstimator::new` followed by the `reset()` the
constructor performs: all ERLE estimates start at `config.erle.min`, the
accumulators at zero, `coming_onset` at `true`.
`use_min_erle_during_onsets` is `true` (kill switch not enabled). -/
def SubbandErleEstimator.new (minE maxL maxH : ℚ) (onset : Bool) (nch : ℕ) :
    SubbandErleEstimator nch where
  use_onset_detection := onset
  min_erle := minE
  max_erle := set_max_erle_bands maxL maxH
  use_min_erle_during_onsets := true
  accum_y2 := fun _ _ => 0
  accum_e2 := fun _ _ => 0
  accum_low_render_energy := fun _ _ => false
  accum_num_points := fun _ => 0
  erle := fun _ _ => minE
  erle_onset_compensated := fun _ _ => minE
  erle_unbounded := fun _ _ => minE
  erle_during_onsets := fun _ _ => minE
  coming_onset := fun _ _ => true
  hold_counters := fun _ _ => 0

/-- Embedding of `update_erle_band` (subband_erle_estimator.rs lines
285-298): step 0.1 (= 1/10) when the new estimate is below the current
one, 0.05 (= 1/20) otherwise, 0 when decreasing with low render energy;
the result is clamped into `[min_erle, max_erle]`. -/
def update_erle_band (erle new_erle : ℚ) (low_render_energy : Bool)
    (min_erle max_erle : ℚ) : ℚ :=
  let alpha : ℚ :=
    if new_erle < erle then (if low_render_energy then 0 else 1/10) else 1/20
  rclamp (erle + alpha * (new_erle - erle)) min_erle max_erle

/-- Embedding of `update_accumulated_spectra` (lines 245-282): for each
converged channel, reset the accumulators when `POINTS_TO_ACCUMULATE`
points had been gathered, then add the current spectra and `or` in the
low-render-energy flags. -/
def SubbandErleEstimator.update_accumulated_spectra {nch : ℕ}
    (s : SubbandErleEstimator nch) (inp : ErleInput nch) :
    SubbandErleEstimator nch :=
  { s with
    accum_y2 := fun ch k =>
      if inp.converged_filters ch then
        (if s.accum_num_points ch = POINTS_TO_ACCUMULATE then 0
         else s.accum_y2 ch k) + inp.y2 ch k
      else s.accum_y2 ch k
    accum_e2 := fun ch k =>
      if inp.converged_filters ch then
        (if s.accum_num_points ch = POINTS_TO_ACCUMULATE then 0
         else s.accum_e2 ch k) + inp.e2 ch k
      else s.accum_e2 ch k
    accum_low_render_energy := fun ch k =>
      if inp.converged_filters ch then
        ((if s.accum_num_points ch = POINTS_TO_ACCUMULATE then false
          else s.accum_low_render_energy ch k) ||
         decide (inp.x2 k < X2_BAND_ENERGY_THRESHOLD))
      else s.accum_low_render_energy ch k
    accum_num_points := fun ch =>
      if inp.converged_filters ch then
        (if s.accum_num_points ch = POINTS_TO_ACCUMULATE then 0
         else s.accum_num_points ch) + 1
      else s.accum_num_points ch }

/-- Embedding of `update_bands` (lines 136-214).  For each channel whose
filter converged and whose accumulator holds `POINTS_TO_ACCUMULATE`
points, every interior bin with positive accumulated `e2` gets
`new_erle = y2_sum / e2_sum` smoothed in via `update_erle_band`; with
onset detection the onset bookkeeping fields are updated as well. -/
def SubbandErleEstimator.update_bands {nch : ℕ}
    (s : SubbandErleEstimator nch) (converged_filters : Fin nch → Bool) :
    SubbandErleEstimator nch :=
  let active : Fin nch → Prop := fun ch =>
    converged_filters ch = true ∧ s.accum_num_points ch = POINTS_TO_ACCUMULATE
  let is_updated : Fin nch → Fin 65 → Prop := fun ch k =>
    interiorBin k ∧ 0 < s.accum_e2 ch k
  let new_erle : Fin nch → Fin 65 → ℚ := fun ch k =>
    s.accum_y2 ch k / s.accum_e2 ch k
  { s with
    coming_onset := fun ch k =>
      if active ch ∧ s.use_onset_detection = true ∧ is_updated ch k ∧
          s.accum_low_render_energy ch k = false
      then false else s.coming_onset ch k
    erle_during_onsets := fun ch k =>
      if active ch ∧ s.use_onset_detection = true ∧ is_updated ch k ∧
          s.accum_low_render_energy ch k = false ∧
          s.coming_onset ch k = true ∧ s.use_min_erle_during_onsets = false
      then
        let alpha : ℚ :=
          if new_erle ch k < s.erle_during_onsets ch k then 3/10 else 3/20
        rclamp (s.erle_during_onsets ch k +
            alpha * (new_erle ch k - s.erle_during_onsets ch k))
          s.min_erle (s.max_erle k)
      else s.erle_during_onsets ch k
    hold_counters := fun ch k =>
      if active ch ∧ s.use_onset_detection = true ∧ is_updated ch k ∧
          s.accum_low_render_energy ch k = false
      then BLOCKS_FOR_ONSET_DETECTION else s.hold_counters ch k
    erle := fun ch k =>
      if active ch ∧ is_updated ch k
      then update_erle_band (s.erle ch k) (new_erle ch k)
        (s.accum_low_render_energy ch k) s.min_erle (s.max_erle k)
      else s.erle ch k
    erle_onset_compensated := fun ch k =>
      if active ch ∧ is_updated ch k ∧ s.use_onset_detection = true
      then update_erle_band (s.erle_onset_compensated ch k) (new_erle ch k)
        (s.accum_low_render_energy ch k) s.min_erle (s.max_erle k)
      else s.erle_onset_compensated ch k
    erle_unbounded := fun ch k =>
      if active ch ∧ is_updated ch k
      then update_erle_band (s.erle_unbounded ch k) (new_erle ch k)
        (s.accum_low_render_energy ch k) s.min_erle 100000
      else s.erle_unbounded ch k }

/-- Embedding of `decrease_erle_per_band_for_low_render_signals` (lines
216-234): decrement the interior hold counters; once a counter has run
down `BLOCKS_TO_HOLD_ERLE` blocks, decay `erle_onset_compensated` toward
`erle_during_onsets` (factor 0.97 = 97/100) and, when the counter reaches
zero, rearm `coming_onset` and pin the counter at zero. -/
def SubbandErleEstimator.decrease_erle_per_band_for_low_render_signals
    {nch : ℕ} (s : SubbandErleEstimator nch) : SubbandErleEstimator nch :=
  { s with
    erle_onset_compensated := fun ch k =>
      if interiorBin k ∧
          s.hold_counters ch k - 1 ≤
            BLOCKS_FOR_ONSET_DETECTION - BLOCKS_TO_HOLD_ERLE ∧
          s.erle_during_onsets ch k < s.erle_onset_compensated ch k
      then max (s.erle_during_onsets ch k)
        (97/100 * s.erle_onset_compensated ch k)
      else s.erle_onset_compensated ch k
    coming_onset := fun ch k =>
      if interiorBin k ∧
          s.hold_counters ch k - 1 ≤
            BLOCKS_FOR_ONSET_DETECTION - BLOCKS_TO_HOLD_ERLE ∧
          s.hold_counters ch k - 1 ≤ 0
      then true else s.coming_onset ch k
    hold_counters := fun ch k =>
      if interiorBin k then
        if s.hold_counters ch k - 1 ≤
            BLOCKS_FOR_ONSET_DETECTION - BLOCKS_TO_HOLD_ERLE ∧
            s.hold_counters ch k - 1 ≤ 0
        then 0 else s.hold_counters ch k - 1
      else s.hold_counters ch k }

/-- Embedding of the edge-bin copies at the end of `update` (lines
108-119): bin 0 is copied from bin 1 and bin `FFT_LENGTH_BY_2` (= 64)
from bin 63, for all three ERLE tables. -/
def SubbandErleEstimator.copy_edge_bins {nch : ℕ}
    (s : SubbandErleEstimator nch) : SubbandErleEstimator nch :=
  { s with
    erle := fun ch k =>
      if k = (0 : Fin 65) then s.erle ch 1
      else if k = (64 : Fin 65) then s.erle ch 63
      else s.erle ch k
    erle_onset_compensated := fun ch k =>
      if k = (0 : Fin 65) then s.erle_onset_compensated ch 1
      else if k = (64 : Fin 65) then s.erle_onset_compensated ch 63
      else s.erle_onset_compensated ch k
    erle_unbounded := fun ch k =>
      if k = (0 : Fin 65) then s.erle_unbounded ch 1
      else if k = (64 : Fin 65) then s.erle_unbounded ch 63
      else s.erle_unbounded ch k }

/-- Embedding of `SubbandErleEstimator::update` (lines 94-120). -/
def SubbandErleEstimator.update {nch : ℕ} (s : SubbandErleEstimator nch)
    (inp : ErleInput nch) : SubbandErleEstimator nch :=
  let s1 := s.update_accumulated_spectra inp
  let s2 := s1.update_bands inp.converged_filters
  let s3 :=
    if s1.use_onset_detection
    then s2.decrease_erle_per_band_for_low_render_signals else s2
  s3.copy_edge_bins

/-- Runs a sequence of `update` calls. -/
def SubbandErleEstimator.run {nch : ℕ} (s : SubbandErleEstimator nch) :
    List (ErleInput nch) → SubbandErleEstimator nch
  | [] => s
  | u :: us => (s.update u).run us

/-- A trivial all-zero, all-converged update input on one channel, used
only to instantiate universally quantified theorems at a concrete point. -/
def erleTestInput : ErleInput 1 :=
  ⟨fun _ => 0, fun _ _ => 0, fun _ _ => 0, fun _ => true⟩

/-- The bounds of testable property 3: every stored ERLE value lies in
`[min_erle, max_erle k]` and every unbounded ERLE value in
`[min_erle, 100000]`. -/
def ErleBoundsInv {nch : ℕ} (s : SubbandErleEstimator nch) : Prop :=
  ∀ (ch : Fin nch) (k : Fin 65),
    s.min_erle ≤ s.erle ch k ∧ s.erle ch k ≤ s.max_erle k ∧
    s.min_erle ≤ s.erle_unbounded ch k ∧ s.erle_unbounded ch k ≤ 100000

/-! HMM-based transparent mode (transparent_mode.rs, `HmmTransparentMode`).
Decimal constants are written as exact fractions: 0.2 = 1/5,
SWITCH = 0.000001 = 1/1000000, 0.01 = 1/100, 0.001 = 1/1000,
0.95 = 19/20, 0.5 = 1/2. -/

/-- Constant from transparent_mode.rs line 31. -/
def INITIAL_TRANSPARENT_STATE_PROBABILITY : ℚ := 1/5

/-- State of `HmmTransparentMode` (transparent_mode.rs lines 210-214). -/
structure HmmTransparentMode where
  transparency_activated : Bool
  prob_transparent_state : ℚ

/-- Embedding of `HmmTransparentMode::new` (lines 217-222). -/
def HmmTransparentMode.new : HmmTransparentMode :=
  ⟨false, INITIAL_TRANSPARENT_STATE_PROBABILITY⟩

/-- The Bayesian posterior update of `HmmTransparentMode::update` (lines
239-267): transition with `SWITCH = 1/1000000`, observe the convergence
flag through `B[state][obs]` with `P(converged | normal) = 1/100` and
`P(converged | transparent) = 1/1000`, and renormalise. -/
def hmmPosteriorStep (any_coarse_filter_converged : Bool) (p : ℚ) : ℚ :=
  let switch : ℚ := 1/1000000
  let converged_normal : ℚ := 1/100
  let converged_transparent : ℚ := 1/1000
  let prob_transparent := p
  let prob_normal := 1 - prob_transparent
  let prob_transition_transparent :=
    prob_normal * switch + prob_transparent * (1 - switch)
  let prob_transition_normal := 1 - prob_transition_transparent
  let b0 := if any_coarse_filter_converged then converged_normal
            else 1 - converged_normal
  let b1 := if any_coarse_filter_converged then converged_transparent
            else 1 - converged_transparent
  let prob_joint_normal := prob_transition_normal * b0
  let prob_joint_transparent := prob_transition_transparent * b1
  prob_joint_transparent / (prob_joint_normal + prob_joint_transparent)

/-- Embedding of `HmmTransparentMode::update` (lines 233-275): no change
without active render; otherwise update the posterior and apply the
activation hysteresis (on above 0.95 = 19/20, off below 0.5 = 1/2). -/
def HmmTransparentMode.update (s : HmmTransparentMode)
    (any_coarse_filter_converged active_render : Bool) : HmmTransparentMode :=
  if !active_render then s
  else
    let p := hmmPosteriorStep any_coarse_filter_converged
      s.prob_transparent_state
    { transparency_activated :=
        if p > 19/20 then true
        else if p < 1/2 then false
        else s.transparency_activated
      prob_transparent_state := p }

/-- Posterior sequence under constant `(converged = false, active_render =
true)` input, from the initial posterior. -/
def hmmProbSeq : ℕ → ℚ
  | 0 => INITIAL_TRANSPARENT_STATE_PROBABILITY
  | n + 1 => hmmPosteriorStep false (hmmProbSeq n)

/-- Full classifier state sequence under constant `(converged = false,
active_render = true)` input. -/
def hmmStateSeq : ℕ → HmmTransparentMode
  | 0 => HmmTransparentMode.new
  | n + 1 => (hmmStateSeq n).update false true

/-- Posterior sequence under constant `(converged = true, active_render =
true)` input, from an arbitrary starting posterior. -/
def hmmDecSeq (p0 : ℚ) : ℕ → ℚ
  | 0 => p0
  | n + 1 => hmmPosteriorStep true (hmmDecSeq p0 n)

/-! Echo Return Loss computation (adaptive_fir_filter_erl.rs). -/

/-- Embedding of one iteration of the partition loop in `compute_erl`
(adaptive_fir_filter_erl.rs lines 21-26): the backend call accumulates
bins `[0, 64)` elementwise and the scalar tail adds the Nyquist bin 64.
The scalar `SimdBackend::elementwise_accumulate` itself lives in the
`sonora-simd` crate, which is not under src/; it is modelled from the
spec ("`erl[k] == Σₚ H2[p][k]` exactly (in the scalar reference)") as
elementwise in-place addition. -/
def accumulate_partition (erl h2_j : Fin 65 → ℚ) : Fin 65 → ℚ :=
  let e1 : Fin 65 → ℚ := fun k => if (k : ℕ) < 64 then erl k + h2_j k else erl k
  fun k => if (k : ℕ) = 64 then e1 k + h2_j k else e1 k

/-- Embedding of `compute_erl` with the scalar backend
(adaptive_fir_filter_erl.rs lines 15-27): zero-fill, then accumulate the
partitions left to right. -/
def compute_erl (h2 : List (Fin 65 → ℚ)) : Fin 65 → ℚ :=
  h2.foldl accumulate_partition (fun _ => 0)

/-! Comfort noise generator (comfort_noise_generator.rs).  Spectra are
indexed by plain naturals 0..64 here (`FftData`, from the missing
fft_data.rs, is modelled from the spec: "FFT length 128; spectrum is
length 65").  The elementwise square root of `VectorMath::sqrt`
(sonora-simd crate, not under src/) is an abstract parameter `sq`, and
`10.0f32.powf` (std) an abstract parameter `pow10`. -/

/-- Modelled from the spec: one FFT-domain signal with real and imaginary
parts over the 65 spectrum bins (`fft_data.rs` is not under src/). -/
structure FftData where
  re : ℕ → ℚ
  im : ℕ → ℚ

/-- The `f32` value of `consts::SQRT_2` (bit pattern 0x3FB504F3),
exactly. -/
def SQRT2_F32 : ℚ := 11863283/8388608

/-- Embedding of `K_SQRT2_SIN` (comfort_noise_generator.rs lines 19-24):
the 32-entry table of `sqrt(2) * sin(2*pi*i/32)` f32 literals. -/
def K_SQRT2_SIN (i : ℕ) : ℚ :=
  if i = 0 then 0
  else if i = 1 then 2758994/10000000
  else if i = 2 then 5411961/10000000
  else if i = 3 then 7856950/10000000
  else if i = 4 then 1
  else if i = 5 then 11758756/10000000
  else if i = 6 then 13065630/10000000
  else if i = 7 then 13870398/10000000
  else if i = 8 then SQRT2_F32
  else if i = 9 then 13870398/10000000
  else if i = 10 then 13065630/10000000
  else if i = 11 then 11758756/10000000
  else if i = 12 then 1
  else if i = 13 then 7856950/10000000
  else if i = 14 then 5411961/10000000
  else if i = 15 then 2758994/10000000
  else if i = 16 then 0
  else if i = 17 then -2758994/10000000
  else if i = 18 then -5411961/10000000
  else if i = 19 then -7856950/10000000
  else if i = 20 then -1
  else if i = 21 then -11758756/10000000
  else if i = 22 then -13065630/10000000
  else if i = 23 then -13870398/10000000
  else if i = 24 then -SQRT2_F32
  else if i = 25 then -13870398/10000000
  else if i = 26 then -13065630/10000000
  else if i = 27 then -11758756/10000000
  else if i = 28 then -1
  else if i = 29 then -7856950/10000000
  else if i = 30 then -5411961/10000000
  else -2758994/10000000

/-- Embedding of `get_noise_floor_factor` (comfort_noise_generator.rs
lines 27-31): `64 * 10^((90.30899 + dbfs) * 0.1)`, with `powf` as the
abstract parameter `pow10`. -/
def get_noise_floor_factor (pow10 : ℚ → ℚ) (noise_floor_dbfs : ℚ) : ℚ :=
  64 * pow10 ((9030899/100000 + noise_floor_dbfs) * (1/10))

/-- One step of the PRNG of `generate_comfort_noise` (line 73):
`seed = seed * 69069 + 1` in u32 arithmetic masked to 31 bits, i.e.
mod `2^31 = 2147483648`. -/
def lcgStep (seed : ℕ) : ℕ := (seed * 69069 + 1) % 2147483648

/-- The seed after `n` PRNG draws. -/
def seedAfter (seed : ℕ) : ℕ → ℕ
  | 0 => seed
  | n + 1 => lcgStep (seedAfter seed n)

/-- The 5-bit table index of the n-th draw (`seed >> 26`, line 75); the
loop processes bins 1..63 in order, so bin `k` uses draw `k`. -/
def drawIndex (seed n : ℕ) : ℕ := seedAfter seed n / 67108864

/-- Embedding of `generate_comfort_noise` (comfort_noise_generator.rs
lines 34-90).  The sequential loop over bins 1..63 with in-place seed
mutation is rendered pointwise: bin `k` uses the `k`-th PRNG draw.
Returns the updated lower-band data, upper-band data, and final seed.
The im parts of bins 0 and 64 are not written by the source and keep
their previous values. -/
def generate_comfort_noise (sq : ℚ → ℚ) (n2 : ℕ → ℚ) (seed : ℕ)
    (lower_band_noise upper_band_noise : FftData) :
    FftData × FftData × ℕ :=
  let n : ℕ → ℚ := fun k => sq (n2 k)
  let high_band_noise_level : ℚ :=
    (∑ j ∈ Finset.range 33, n (32 + j)) * (1/33)
  let x : ℕ → ℚ := fun k => K_SQRT2_SIN (drawIndex seed k)
  let y : ℕ → ℚ := fun k => K_SQRT2_SIN ((drawIndex seed k + 8) % 32)
  (⟨fun k => if k = 0 ∨ k = 64 then 0
      else if 1 ≤ k ∧ k < 64 then n k * x k
      else lower_band_noise.re k,
    fun k => if 1 ≤ k ∧ k < 64 then n k * y k
      else lower_band_noise.im k⟩,
   ⟨fun k => if k = 0 ∨ k = 64 then 0
      else if 1 ≤ k ∧ k < 64 then high_band_noise_level * x k
      else upper_band_noise.re k,
    fun k => if 1 ≤ k ∧ k < 64 then high_band_noise_level * y k
      else upper_band_noise.im k⟩,
   seedAfter seed 63)

/-- The upper-band noise level as the spec's words state it: the scalar
average of `n[33..65]`, i.e. of the 32 entries at bins 33..64. -/
def claimed_high_band_level (sq : ℚ → ℚ) (n2 : ℕ → ℚ) : ℚ :=
  (∑ j ∈ Finset.range 32, sq (n2 (33 + j))) * (1/32)

/-- State of `ComfortNoiseGenerator` (comfort_noise_generator.rs lines
94-103). -/
structure ComfortNoiseGenerator (nch : ℕ) where
  seed : ℕ
  noise_floor : ℚ
  n2_initial : Option (Fin nch → ℕ → ℚ)
  y2_smoothed : Fin nch → ℕ → ℚ
  n2 : Fin nch → ℕ → ℚ
  n2_counter : ℤ

/-- Embedding of `ComfortNoiseGenerator::new` (lines 106-118). -/
def ComfortNoiseGenerator.new (pow10 : ℚ → ℚ) (noise_floor_dbfs : ℚ)
    (nch : ℕ) : ComfortNoiseGenerator nch where
  seed := 42
  noise_floor := get_noise_floor_factor pow10 noise_floor_dbfs
  n2_initial := some (fun _ _ => 0)
  y2_smoothed := fun _ _ => 0
  n2 := fun _ _ => 1000000
  n2_counter := 0

/-- The noise estimate `compute` synthesises from: `n2_initial` while it
is still present, `n2` afterwards (lines 187-191). -/
def ComfortNoiseGenerator.estimate {nch : ℕ}
    (s : ComfortNoiseGenerator nch) : Fin nch → ℕ → ℚ :=
  fun ch =>
    match s.n2_initial with
    | some ni => ni ch
    | none => s.n2 ch

/-- The per-channel generation loop of `compute` (lines 182-193): the
channels are processed in order, threading the PRNG seed. -/
def genChannels {nch : ℕ} (sq : ℚ → ℚ) (est : Fin nch → ℕ → ℚ) (seed : ℕ)
    (lower upper : Fin nch → FftData) :
    (Fin nch → FftData) × (Fin nch → FftData) × ℕ :=
  (List.finRange nch).foldl
    (fun acc ch =>
      let g := generate_comfort_noise sq (est ch) acc.2.2 (acc.1 ch)
        (acc.2.1 ch)
      (Function.update acc.1 ch g.1, Function.update acc.2.1 ch g.2.1,
        g.2.2))
    (lower, upper, seed)

/-- Embedding of `ComfortNoiseGenerator::compute` (lines 121-194).  When
the capture is not saturated: smooth `Y2`, run the asymmetric IIR on `N2`
once the warm-up counter exceeds 50, track / retire the `N2_initial`
estimate, and floor both at `noise_floor`; in every case, generate the
comfort noise from the current estimate, advancing the seed. -/
def ComfortNoiseGenerator.compute {nch : ℕ} (s : ComfortNoiseGenerator nch)
    (saturated_capture : Bool) (capture_spectrum : Fin nch → ℕ → ℚ)
    (lower_band_noise upper_band_noise : Fin nch → FftData) (sq : ℚ → ℚ) :
    ComfortNoiseGenerator nch × (Fin nch → FftData) × (Fin nch → FftData) :=
  let y2s : Fin nch → ℕ → ℚ :=
    if saturated_capture then s.y2_smoothed
    else fun ch k =>
      s.y2_smoothed ch k + 1/10 * (capture_spectrum ch k - s.y2_smoothed ch k)
  let n2a : Fin nch → ℕ → ℚ :=
    if saturated_capture then s.n2
    else if 50 < s.n2_counter then
      fun ch k =>
        if y2s ch k < s.n2 ch k then
          (9/10 * y2s ch k + 1/10 * s.n2 ch k) * (5001/5000)
        else s.n2 ch k * (5001/5000)
    else s.n2
  let initStep : Option (Fin nch → ℕ → ℚ) × ℤ :=
    if saturated_capture then (s.n2_initial, s.n2_counter)
    else
      match s.n2_initial with
      | some ni =>
        if s.n2_counter + 1 = 1000 then (none, s.n2_counter + 1)
        else
          (some (fun ch k =>
            if ni ch k < n2a ch k then
              ni ch k + 1/1000 * (n2a ch k - ni ch k)
            else n2a ch k), s.n2_counter + 1)
      | none => (none, s.n2_counter)
  let n2b : Fin nch → ℕ → ℚ :=
    if saturated_capture then n2a
    else fun ch k => max (n2a ch k) s.noise_floor
  let n2ib : Option (Fin nch → ℕ → ℚ) :=
    if saturated_capture then initStep.1
    else initStep.1.map (fun ni ch k => max (ni ch k) s.noise_floor)
  let s1 : ComfortNoiseGenerator nch :=
    { seed := s.seed, noise_floor := s.noise_floor, n2_initial := n2ib,
      y2_smoothed := y2s, n2 := n2b, n2_counter := initStep.2 }
  let g := genChannels sq s1.estimate s.seed lower_band_noise
    upper_band_noise
  ({ s1 with seed := g.2.2 }, g.1, g.2.1)

end Aec3

namespace Ns

/-! Noise-suppressor speech probability estimator
(crates/sonora-ns/src/speech_probability_estimator.rs).  The
`SignalModelEstimator` (signal_model_estimator.rs) and `fast_math.rs` are
not under src/, so the model/prior-model values the estimator reads after
its internal update are universally quantified inputs here, `tanh'`
models `f32::tanh` (std), and `expNeg` models
`exp_approximation_sign_flip` — modelled from the spec:
`p[k] = 1 / (1 + ((1-prior)/(prior+0.0001)) * exp(-avgLogLRT[k]))`, so
`expNeg x` stands for the (nonnegative) approximation of `exp(-x)`. -/

/-- Modelled from the spec: the NS spectrum size constant
(`FFT_SIZE_BY_2_PLUS_1`, config.rs of sonora-ns is not under src/); the
claims do not depend on its value. -/
def FFT_SIZE_BY_2_PLUS_1 : ℕ := 129

/-- The features the `SignalModelEstimator` exposes through `model()`
(read by `SpeechProbabilityEstimator::update`). -/
structure SignalModel where
  lrt : ℚ
  spectral_flatness : ℚ
  spectral_diff : ℚ
  avg_log_lrt : Fin 129 → ℚ

/-- The thresholds and weights exposed through `prior_model()`. -/
structure PriorSignalModel where
  lrt : ℚ
  flatness_threshold : ℚ
  template_diff_threshold : ℚ
  lrt_weighting : ℚ
  flatness_weighting : ℚ
  difference_weighting : ℚ

/-- State of `SpeechProbabilityEstimator`
(speech_probability_estimator.rs lines 26-30). -/
structure SpeechProbabilityEstimator where
  prior_speech_prob : ℚ
  speech_probability : Fin 129 → ℚ

/-- Embedding of the `Default` impl (lines 32-40). -/
def SpeechProbabilityEstimator.default : SpeechProbabilityEstimator :=
  ⟨1/2, fun _ => 0⟩

/-- Width constant `WIDTH_PRIOR_0` (line 63). -/
def WIDTH_PRIOR_0 : ℚ := 4

/-- Width constant `WIDTH_PRIOR_1 = 2 * WIDTH_PRIOR_0` (line 65). -/
def WIDTH_PRIOR_1 : ℚ := 2 * WIDTH_PRIOR_0

/-- Embedding of `SpeechProbabilityEstimator::update` (lines 44-121),
with the already-updated signal model and prior model as inputs: three
tanh indicator functions with doubled width in the pause region, weighted
into `ind_prior`; the prior follows `prior += 0.1*(ind - prior)` and is
clamped to `[0.01, 1]`; the per-bin posterior is
`1 / (1 + ((1-prior)/(prior+0.0001)) * expNeg(avg_log_lrt[k]))`. -/
def SpeechProbabilityEstimator.update (s : SpeechProbabilityEstimator)
    (tanh' expNeg : ℚ → ℚ) (model : SignalModel)
    (prior_model : PriorSignalModel) : SpeechProbabilityEstimator :=
  let width_prior0 :=
    if model.lrt < prior_model.lrt then WIDTH_PRIOR_1 else WIDTH_PRIOR_0
  let indicator0 :=
    1/2 * (tanh' (width_prior0 * (model.lrt - prior_model.lrt)) + 1)
  let width_prior1 :=
    if model.spectral_flatness > prior_model.flatness_threshold
    then WIDTH_PRIOR_1 else WIDTH_PRIOR_0
  let indicator1 :=
    1/2 * (tanh' (width_prior1 *
      (prior_model.flatness_threshold - model.spectral_flatness)) + 1)
  let width_prior2 :=
    if model.spectral_diff < prior_model.template_diff_threshold
    then WIDTH_PRIOR_1 else WIDTH_PRIOR_0
  let indicator2 :=
    1/2 * (tanh' (width_prior2 *
      (model.spectral_diff - prior_model.template_diff_threshold)) + 1)
  let ind_prior := prior_model.lrt_weighting * indicator0 +
    prior_model.flatness_weighting * indicator1 +
    prior_model.difference_weighting * indicator2
  let prior1 := s.prior_speech_prob + 1/10 * (ind_prior - s.prior_speech_prob)
  let prior2 := Aec3.rclamp prior1 (1/100) 1
  let gain_prior := (1 - prior2) / (prior2 + 1/10000)
  { prior_speech_prob := prior2
    speech_probability := fun k =>
      1 / (1 + gain_prior * expNeg (model.avg_log_lrt k)) }

end Ns

namespace Aec3

theorem qmin_eq_min (a b : ℚ) : qmin a b = min a b := by
  simp [qmin, min_def]

theorem qmax_eq_max (a b : ℚ) : qmax a b = max a b := by
  simp [qmax, max_def]

theorem F32.inR_iff {v : F32} {lo hi : ℚ} :
    v.inR lo hi ↔ ∃ q, v = .fin q ∧ lo ≤ q ∧ q ≤ hi := by
  cases v <;> simp [F32.inR]

theorem F32.fmin_inR {a b : F32} {lo hi : ℚ} (ha : a.inR lo hi)
    (hb : b.inR lo hi) : (a.fmin b).inR lo hi := by
  obtain ⟨qa, rfl, ha1, ha2⟩ := F32.inR_iff.1 ha
  obtain ⟨qb, rfl, hb1, hb2⟩ := F32.inR_iff.1 hb
  show F32.inR (.fin (qmin qa qb)) lo hi
  unfold qmin
  split
  · exact ⟨ha1, ha2⟩
  · exact ⟨hb1, hb2⟩

theorem F32.fgt_eq_false {qa qb : ℚ} (h : qa ≤ qb) :
    (F32.fin qa).fgt (.fin qb) = false := by
  simp [F32.fgt]
  linarith

theorem F32.fmin_leF_left {qa qb : ℚ} : ((F32.fin qa).fmin (.fin qb)).leF (.fin qa) := by
  show F32.leF (.fin (qmin qa qb)) (.fin qa)
  unfold qmin
  split
  · exact le_refl _
  · show qb ≤ qa
    linarith [lt_of_not_le (by assumption : ¬ qa ≤ qb)]

theorem F32.fmin_leF_right {qa qb : ℚ} : ((F32.fin qa).fmin (.fin qb)).leF (.fin qb) := by
  show F32.leF (.fin (qmin qa qb)) (.fin qb)
  unfold qmin
  split
  · assumption
  · exact le_refl _

theorem limit_f32_mem (v : F32) {lo hi : ℚ} (h : lo ≤ hi) :
    (limit_f32 v lo hi).1.inR lo hi := by
  cases v with
  | nan => exact ⟨le_refl _, h⟩
  | inf => exact ⟨h, le_refl _⟩
  | ninf => exact ⟨le_refl _, h⟩
  | fin q =>
    show F32.inR (.fin (qmax lo (qmin hi q))) lo hi
    rw [qmin_eq_min, qmax_eq_max]
    exact ⟨le_max_left _ _, max_le h (min_le_left _ _)⟩

theorem limit_f32_eq_self {v : F32} {lo hi : ℚ} (h : v.inR lo hi) :
    limit_f32 v lo hi = (v, true) := by
  obtain ⟨q, rfl, h1, h2⟩ := F32.inR_iff.1 h
  show ((.fin (qmax lo (qmin hi q)) : F32), _) = _
  rw [qmin_eq_min, qmax_eq_max, min_eq_right h2, max_eq_right h1]
  simp [limit_f32, F32.feq, F32.clampF, F32.isFinite, qmin_eq_min, qmax_eq_max,
    min_eq_right h2, max_eq_right h1]

theorem limit_usize_mem (v : ℕ) {lo hi : ℕ} (h : lo ≤ hi) :
    lo ≤ (limit_usize v lo hi).1 ∧ (limit_usize v lo hi).1 ≤ hi := by
  simp only [limit_usize]
  omega

theorem limit_usize_eq_self {v lo hi : ℕ} (h1 : lo ≤ v) (h2 : v ≤ hi) :
    limit_usize v lo hi = (v, true) := by
  have : max lo (min hi v) = v := by omega
  simp [limit_usize, this]

theorem limit_i32_mem (v : ℤ) {lo hi : ℤ} (h : lo ≤ hi) :
    lo ≤ (limit_i32 v lo hi).1 ∧ (limit_i32 v lo hi).1 ≤ hi := by
  simp only [limit_i32]
  omega

theorem limit_i32_eq_self {v lo hi : ℤ} (h1 : lo ≤ v) (h2 : v ≤ hi) :
    limit_i32 v lo hi = (v, true) := by
  have : max lo (min hi v) = v := by omega
  simp [limit_i32, this]

theorem floor_limit_usize_mem (v lo : ℕ) : lo ≤ (floor_limit_usize v lo).1 := by
  simp only [floor_limit_usize]
  split <;> omega

theorem floor_limit_usize_eq_self {v lo : ℕ} (h : lo ≤ v) :
    floor_limit_usize v lo = (v, true) := by
  simp [floor_limit_usize]
  omega

theorem F32.leF_iff {a b : F32} :
    a.leF b ↔ ∃ qa qb, a = .fin qa ∧ b = .fin qb ∧ qa ≤ qb := by
  cases a <;> cases b <;> simp [F32.leF]

theorem validate_tuning_mem (t : Tuning) : TuningValid (validate_tuning t).1 := by
  refine ⟨?_, ?_, ?_, ?_, ?_, ?_, ?_, ?_⟩ <;>
    exact limit_f32_mem _ (by norm_num)

theorem validate_tuning_eq_self {t : Tuning} (h : TuningValid t) :
    validate_tuning t = (t, true) := by
  obtain ⟨h1, h2, h3, h4, h5, h6, h7, h8⟩ := h
  simp only [validate_tuning, limit_f32_eq_self h1, limit_f32_eq_self h2,
    limit_f32_eq_self h3, limit_f32_eq_self h4, limit_f32_eq_self h5,
    limit_f32_eq_self h6, limit_f32_eq_self h7, limit_f32_eq_self h8]
  rfl

/-- A valid configuration passes `validate` unchanged, with result `true`. -/
theorem validate_eq_self {c : EchoCanceller3Config} (h : c.Valid) :
    c.validate = (c, true) := by
  obtain ⟨⟨hdsf, hdd, hnf, hdhs, hhlb, hfcds, hdes, hdcdt, hdsti1, hdsti2,
      hdstc1, hdstc2⟩,
    ⟨hrlb, hrlc, hrld, href, hrec, hrng, hrilb, hrilc, hrild, hrief, hriec,
      hring, hri, hclb, hcrate, hcng, hcilb, hcirate, hcing, hci, hccdb,
      hiss, hcrhb1, hcrhb2⟩,
    ⟨hemin, hemaxl, hemaxh, heminl, heminh, hens1, hens2⟩,
    ⟨hepdg, hepdl, hepnl⟩,
    ⟨healr, heanr, heafp, heatlf, heatmf, heathf⟩,
    ⟨hrlar, hrlpe, hrlpe8⟩,
    ⟨hemnfh, hemmnf, hemsgs, hemngp, hemngs, hemrpre, hemrpost⟩,
    hcnf,
    ⟨hsnab1, hsnab2, htn, htne, hslpls1, hslpls2, hslls1, hslls2, hsllb1,
      hsllb2, hsfhb1, hsfhb2, hdnet, hdnst, hdnhd1, hdnhd2, hdntt1, hdntt2,
      hsbnab1, hsbnab2, hsb1l, hsb1lh, hsb1h, hsb2l, hsb2lh, hsb2h, hsbnt,
      hsbst, hhbet, hhbmg, hhbaht, hhbahg, hhflgb1, hhflgb2, hhfblg1,
      hhfblg2, hsffi⟩⟩ := h
  have hdsfc : ¬(c.delay.down_sampling_factor ≠ 4 ∧
      c.delay.down_sampling_factor ≠ 8) := by
    rcases hdsf with h4 | h8
    · simp [h4]
    · simp [h8]
  have hrin : ¬(c.filter.refined.length_blocks <
      c.filter.refined_initial.length_blocks) := not_lt.2 hri
  have hcin : ¬(c.filter.coarse.length_blocks <
      c.filter.coarse_initial.length_blocks) := not_lt.2 hci
  obtain ⟨qm, ql, heqm, heql, hml⟩ := F32.leF_iff.1 heminl
  obtain ⟨qm2, qh, heqm2, heqh, hmh⟩ := F32.leF_iff.1 heminh
  have heqm2' : qm2 = qm := by
    rw [heqm] at heqm2
    injection heqm2 with hq
    exact hq.symm
  subst heqm2'
  have hgl : c.erle.min.fgt c.erle.max_l = false := by
    rw [heqm, heql]; exact F32.fgt_eq_false hml
  have hgh : c.erle.min.fgt c.erle.max_h = false := by
    rw [heqm, heqh]; exact F32.fgt_eq_false hmh
  simp only [EchoCanceller3Config.validate,
    limit_usize_eq_self (Nat.zero_le _) hdd,
    limit_usize_eq_self (Nat.zero_le _) hnf,
    limit_usize_eq_self (Nat.zero_le _) hdhs,
    limit_usize_eq_self (Nat.zero_le _) hhlb,
    limit_usize_eq_self (Nat.zero_le _) hfcds,
    limit_f32_eq_self hdes, limit_f32_eq_self hdcdt,
    limit_i32_eq_self hdsti1 hdsti2, limit_i32_eq_self hdstc1 hdstc2,
    floor_limit_usize_eq_self hrlb, floor_limit_usize_eq_self hrilb,
    floor_limit_usize_eq_self hclb, floor_limit_usize_eq_self hcilb,
    limit_f32_eq_self hrlc, limit_f32_eq_self hrld, limit_f32_eq_self href,
    limit_f32_eq_self hrec, limit_f32_eq_self hrng,
    limit_f32_eq_self hrilc, limit_f32_eq_self hrild, limit_f32_eq_self hrief,
    limit_f32_eq_self hriec, limit_f32_eq_self hring,
    limit_f32_eq_self hcrate, limit_f32_eq_self hcng,
    limit_f32_eq_self hcirate, limit_f32_eq_self hcing,
    limit_usize_eq_self (Nat.zero_le _) hccdb, limit_f32_eq_self hiss,
    limit_i32_eq_self hcrhb1 hcrhb2,
    limit_f32_eq_self hemin, limit_f32_eq_self hemaxl,
    limit_f32_eq_self hemaxh,
    limit_usize_eq_self hens1 hens2,
    limit_f32_eq_self hepdg, limit_f32_eq_self hepdl, limit_f32_eq_self hepnl,
    limit_f32_eq_self healr, limit_f32_eq_self heanr, limit_f32_eq_self heafp,
    limit_f32_eq_self heatlf, limit_f32_eq_self heatmf,
    limit_f32_eq_self heathf,
    limit_f32_eq_self hrlar, limit_f32_eq_self hrlpe,
    limit_f32_eq_self hrlpe8,
    limit_usize_eq_self (Nat.zero_le _) hemnfh, limit_f32_eq_self hemmnf,
    limit_f32_eq_self hemsgs, limit_f32_eq_self hemngp,
    limit_f32_eq_self hemngs,
    limit_usize_eq_self (Nat.zero_le _) hemrpre,
    limit_usize_eq_self (Nat.zero_le _) hemrpost,
    limit_f32_eq_self hcnf,
    limit_usize_eq_self hsnab1 hsnab2,
    validate_tuning_eq_self htn, validate_tuning_eq_self htne,
    limit_i32_eq_self hslpls1 hslpls2, limit_i32_eq_self hslls1 hslls2,
    limit_i32_eq_self hsllb1 hsllb2, limit_i32_eq_self hsfhb1 hsfhb2,
    limit_f32_eq_self hdnet, limit_f32_eq_self hdnst,
    limit_i32_eq_self hdnhd1 hdnhd2, limit_i32_eq_self hdntt1 hdntt2,
    limit_usize_eq_self hsbnab1 hsbnab2,
    limit_usize_eq_self (Nat.zero_le _) hsb1l,
    limit_usize_eq_self hsb1lh hsb1h,
    limit_usize_eq_self (Nat.zero_le _) hsb2l,
    limit_usize_eq_self hsb2lh hsb2h,
    limit_f32_eq_self hsbnt, limit_f32_eq_self hsbst,
    limit_f32_eq_self hhbet, limit_f32_eq_self hhbmg,
    limit_f32_eq_self hhbaht, limit_f32_eq_self hhbahg,
    limit_i32_eq_self hhflgb1 hhflgb2, limit_i32_eq_self hhfblg1 hhfblg2,
    limit_f32_eq_self hsffi,
    hdsfc, hrin, hcin, hgl, hgh,
    if_false, Bool.false_eq_true, or_self, ite_false]
  rfl

theorem F32.leF_of_fgt_eq_false {qa qb : ℚ}
    (h : (F32.fin qa).fgt (.fin qb) = false) : (F32.fin qa).leF (.fin qb) := by
  simp only [F32.fgt, decide_eq_false_iff_not, not_lt] at h
  exact h

/-- The configuration produced by `validate` satisfies every range and
cross-field invariant that `validate` enforces. -/
theorem validate_valid (c : EchoCanceller3Config) : (c.validate).1.Valid := by
  have h1le : (1 : ℚ) ≤ 100000 := by norm_num
  have hminm := limit_f32_mem c.erle.min h1le
  have hmaxlm := limit_f32_mem c.erle.max_l h1le
  have hmaxhm := limit_f32_mem c.erle.max_h h1le
  obtain ⟨qm, hmeq, hm1, hm2⟩ := F32.inR_iff.1 hminm
  obtain ⟨ql, hleq, hl1, hl2⟩ := F32.inR_iff.1 hmaxlm
  obtain ⟨qh, hheq, hh1, hh2⟩ := F32.inR_iff.1 hmaxhm
  have hrlbm := floor_limit_usize_mem c.filter.refined.length_blocks 1
  have hrilbm := floor_limit_usize_mem c.filter.refined_initial.length_blocks 1
  have hclbm := floor_limit_usize_mem c.filter.coarse.length_blocks 1
  have hcilbm := floor_limit_usize_mem c.filter.coarse_initial.length_blocks 1
  have hsllbm := limit_i32_mem c.suppressor.last_lf_band
    (show (0:ℤ) ≤ 63 by norm_num)
  have hlgbm := limit_i32_mem
    c.suppressor.high_frequency_suppression.limiting_gain_band
    (show (1:ℤ) ≤ 64 by norm_num)
  have hsb1lm := limit_usize_mem c.suppressor.subband_nearend_detection.subband1.low
    (show (0:ℕ) ≤ 65 by norm_num)
  have hsb2lm := limit_usize_mem c.suppressor.subband_nearend_detection.subband2.low
    (show (0:ℕ) ≤ 65 by norm_num)
  unfold EchoCanceller3Config.Valid DelayValid FilterValid ErleValid
    EpStrengthValid EchoAudibilityValid RenderLevelsValid EchoModelValid
    SuppressorValid
  simp only [EchoCanceller3Config.validate]
  refine ⟨⟨?_, ?_, ?_, ?_, ?_, ?_, ?_, ?_, ?_, ?_, ?_, ?_⟩,
    ⟨?_, ?_, ?_, ?_, ?_, ?_, ?_, ?_, ?_, ?_, ?_, ?_, ?_, ?_, ?_, ?_, ?_, ?_,
      ?_, ?_, ?_, ?_, ?_, ?_⟩,
    ⟨?_, ?_, ?_, ?_, ?_, ?_, ?_⟩,
    ⟨?_, ?_, ?_⟩,
    ⟨?_, ?_, ?_, ?_, ?_, ?_⟩,
    ⟨?_, ?_, ?_⟩,
    ⟨?_, ?_, ?_, ?_, ?_, ?_, ?_⟩,
    ?_,
    ⟨?_, ?_, ?_, ?_, ?_, ?_, ?_, ?_, ?_, ?_, ?_, ?_, ?_, ?_, ?_, ?_, ?_, ?_,
      ?_, ?_, ?_, ?_, ?_, ?_, ?_, ?_, ?_, ?_, ?_, ?_, ?_, ?_, ?_, ?_, ?_, ?_,
      ?_⟩⟩
  -- Delay
  · show (if c.delay.down_sampling_factor ≠ 4 ∧ c.delay.down_sampling_factor ≠ 8
        then ((4:ℕ), false) else (c.delay.down_sampling_factor, true)).1 = 4 ∨
      (if c.delay.down_sampling_factor ≠ 4 ∧ c.delay.down_sampling_factor ≠ 8
        then ((4:ℕ), false) else (c.delay.down_sampling_factor, true)).1 = 8
    split_ifs with hc
    · exact Or.inl rfl
    · show c.delay.down_sampling_factor = 4 ∨ c.delay.down_sampling_factor = 8
      omega
  · exact (limit_usize_mem _ (by norm_num)).2
  · exact (limit_usize_mem _ (by norm_num)).2
  · exact (limit_usize_mem _ (by norm_num)).2
  · exact (limit_usize_mem _ (by norm_num)).2
  · exact (limit_usize_mem _ (by norm_num)).2
  · exact limit_f32_mem _ (by norm_num)
  · exact limit_f32_mem _ (by norm_num)
  · exact (limit_i32_mem _ (by norm_num)).1
  · exact (limit_i32_mem _ (by norm_num)).2
  · exact (limit_i32_mem _ (by norm_num)).1
  · exact (limit_i32_mem _ (by norm_num)).2
  -- Filter
  · exact hrlbm
  · exact limit_f32_mem _ (by norm_num)
  · exact limit_f32_mem _ (by norm_num)
  · exact limit_f32_mem _ (by norm_num)
  · exact limit_f32_mem _ (by norm_num)
  · exact limit_f32_mem _ (by norm_num)
  · show 1 ≤ (if (floor_limit_usize c.filter.refined.length_blocks 1).1 <
        (floor_limit_usize c.filter.refined_initial.length_blocks 1).1
      then ((floor_limit_usize c.filter.refined.length_blocks 1).1, false)
      else ((floor_limit_usize c.filter.refined_initial.length_blocks 1).1,
        true)).1
    split_ifs
    · exact hrlbm
    · exact hrilbm
  · exact limit_f32_mem _ (by norm_num)
  · exact limit_f32_mem _ (by norm_num)
  · exact limit_f32_mem _ (by norm_num)
  · exact limit_f32_mem _ (by norm_num)
  · exact limit_f32_mem _ (by norm_num)
  · show (if (floor_limit_usize c.filter.refined.length_blocks 1).1 <
        (floor_limit_usize c.filter.refined_initial.length_blocks 1).1
      then ((floor_limit_usize c.filter.refined.length_blocks 1).1, false)
      else ((floor_limit_usize c.filter.refined_initial.length_blocks 1).1,
        true)).1 ≤ (floor_limit_usize c.filter.refined.length_blocks 1).1
    split_ifs with hc
    · exact le_refl _
    · exact not_lt.1 hc
  · exact hclbm
  · exact limit_f32_mem _ (by norm_num)
  · exact limit_f32_mem _ (by norm_num)
  · show 1 ≤ (if (floor_limit_usize c.filter.coarse.length_blocks 1).1 <
        (floor_limit_usize c.filter.coarse_initial.length_blocks 1).1
      then ((floor_limit_usize c.filter.coarse.length_blocks 1).1, false)
      else ((floor_limit_usize c.filter.coarse_initial.length_blocks 1).1,
        true)).1
    split_ifs
    · exact hclbm
    · exact hcilbm
  · exact limit_f32_mem _ (by norm_num)
  · exact limit_f32_mem _ (by norm_num)
  · show (if (floor_limit_usize c.filter.coarse.length_blocks 1).1 <
        (floor_limit_usize c.filter.coarse_initial.length_blocks 1).1
      then ((floor_limit_usize c.filter.coarse.length_blocks 1).1, false)
      else ((floor_limit_usize c.filter.coarse_initial.length_blocks 1).1,
        true)).1 ≤ (floor_limit_usize c.filter.coarse.length_blocks 1).1
    split_ifs with hc
    · exact le_refl _
    · exact not_lt.1 hc
  · exact (limit_usize_mem _ (by norm_num)).2
  · exact limit_f32_mem _ (by norm_num)
  · exact (limit_i32_mem _ (by norm_num)).1
  · exact (limit_i32_mem _ (by norm_num)).2
  -- Erle
  · show F32.inR (if ((limit_f32 c.erle.min 1 100000).1.fgt
          (limit_f32 c.erle.max_l 1 100000).1 ∨
        (limit_f32 c.erle.min 1 100000).1.fgt
          (limit_f32 c.erle.max_h 1 100000).1)
      then ((limit_f32 c.erle.max_l 1 100000).1.fmin
        (limit_f32 c.erle.max_h 1 100000).1, false)
      else ((limit_f32 c.erle.min 1 100000).1, true)).1 1 100000
    split_ifs
    · exact F32.fmin_inR hmaxlm hmaxhm
    · exact hminm
  · exact hmaxlm
  · exact hmaxhm
  · show F32.leF (if ((limit_f32 c.erle.min 1 100000).1.fgt
          (limit_f32 c.erle.max_l 1 100000).1 ∨
        (limit_f32 c.erle.min 1 100000).1.fgt
          (limit_f32 c.erle.max_h 1 100000).1)
      then ((limit_f32 c.erle.max_l 1 100000).1.fmin
        (limit_f32 c.erle.max_h 1 100000).1, false)
      else ((limit_f32 c.erle.min 1 100000).1, true)).1
      (limit_f32 c.erle.max_l 1 100000).1
    split_ifs with hc
    · rw [hleq, hheq]
      exact F32.fmin_leF_left
    · push_neg at hc
      rw [hmeq, hleq]
      refine F32.leF_of_fgt_eq_false ?_
      rw [hmeq, hleq] at hc
      simpa using hc.1
  · show F32.leF (if ((limit_f32 c.erle.min 1 100000).1.fgt
          (limit_f32 c.erle.max_l 1 100000).1 ∨
        (limit_f32 c.erle.min 1 100000).1.fgt
          (limit_f32 c.erle.max_h 1 100000).1)
      then ((limit_f32 c.erle.max_l 1 100000).1.fmin
        (limit_f32 c.erle.max_h 1 100000).1, false)
      else ((limit_f32 c.erle.min 1 100000).1, true)).1
      (limit_f32 c.erle.max_h 1 100000).1
    split_ifs with hc
    · rw [hleq, hheq]
      exact F32.fmin_leF_right
    · push_neg at hc
      rw [hmeq, hheq]
      refine F32.leF_of_fgt_eq_false ?_
      rw [hmeq, hheq] at hc
      simpa using hc.2
  · exact (limit_usize_mem _ hrlbm).1
  · exact (limit_usize_mem _ hrlbm).2
  -- EpStrength
  · exact limit_f32_mem _ (by norm_num)
  · exact limit_f32_mem _ (by norm_num)
  · exact limit_f32_mem _ (by norm_num)
  -- EchoAudibility
  · exact limit_f32_mem _ (by norm_num)
  · exact limit_f32_mem _ (by norm_num)
  · exact limit_f32_mem _ (by norm_num)
  · exact limit_f32_mem _ (by norm_num)
  · exact limit_f32_mem _ (by norm_num)
  · exact limit_f32_mem _ (by norm_num)
  -- RenderLevels
  · exact limit_f32_mem _ (by norm_num)
  · exact limit_f32_mem _ (by norm_num)
  · exact limit_f32_mem _ (by norm_num)
  -- EchoModel
  · exact (limit_usize_mem _ (by norm_num)).2
  · exact limit_f32_mem _ (by norm_num)
  · exact limit_f32_mem _ (by norm_num)
  · exact limit_f32_mem _ (by norm_num)
  · exact limit_f32_mem _ (by norm_num)
  · exact (limit_usize_mem _ (by norm_num)).2
  · exact (limit_usize_mem _ (by norm_num)).2
  -- ComfortNoise
  · exact limit_f32_mem _ (by norm_num)
  -- Suppressor
  · exact (limit_usize_mem _ (by norm_num)).1
  · exact (limit_usize_mem _ (by norm_num)).2
  · exact validate_tuning_mem _
  · exact validate_tuning_mem _
  · exact (limit_i32_mem _ (by norm_num)).1
  · exact (limit_i32_mem _ (by norm_num)).2
  · exact (limit_i32_mem _ (by norm_num)).1
  · exact (limit_i32_mem _ (by norm_num)).2
  · exact hsllbm.1
  · exact hsllbm.2
  · exact (limit_i32_mem _ (by omega)).1
  · exact (limit_i32_mem _ (by omega)).2
  · exact limit_f32_mem _ (by norm_num)
  · exact limit_f32_mem _ (by norm_num)
  · exact (limit_i32_mem _ (by norm_num)).1
  · exact (limit_i32_mem _ (by norm_num)).2
  · exact (limit_i32_mem _ (by norm_num)).1
  · exact (limit_i32_mem _ (by norm_num)).2
  · exact (limit_usize_mem _ (by norm_num)).1
  · exact (limit_usize_mem _ (by norm_num)).2
  · exact hsb1lm.2
  · exact (limit_usize_mem _ hsb1lm.2).1
  · exact (limit_usize_mem _ hsb1lm.2).2
  · exact hsb2lm.2
  · exact (limit_usize_mem _ hsb2lm.2).1
  · exact (limit_usize_mem _ hsb2lm.2).2
  · exact limit_f32_mem _ (by norm_num)
  · exact limit_f32_mem _ (by norm_num)
  · exact limit_f32_mem _ (by norm_num)
  · exact limit_f32_mem _ (by norm_num)
  · exact limit_f32_mem _ (by norm_num)
  · exact limit_f32_mem _ (by norm_num)
  · exact hlgbm.1
  · exact hlgbm.2
  · exact (limit_i32_mem _ (by omega)).1
  · exact (limit_i32_mem _ (by omega)).2
  · exact limit_f32_mem _ (by norm_num)

/-- C1: `EchoCanceller3Config::validate` is idempotent: applying it to an
already-validated configuration returns that configuration unchanged
(field for field) together with `true` ("validated without change"), for
every starting configuration, including NaN and out-of-range values. -/
theorem config_validate_idempotent (c : EchoCanceller3Config) :
    (c.validate.1).validate = (c.validate.1, true) :=
  validate_eq_self (validate_valid c)

/-- C2: starting from the default configuration, setting
`delay.down_sampling_factor = 3` and `erle.min = 200000` and validating
yields `down_sampling_factor = 4` and
`erle.min = min(erle.max_l, erle.max_h) = 1.5` (= `mkRat 3 2`), and the
validator reports a change (returns `false`). -/
theorem config_validate_clamps_s5 :
    s5Config.validate.2 = false ∧
    s5Config.validate.1.delay.down_sampling_factor = 4 ∧
    s5Config.validate.1.erle.min = .fin (mkRat 3 2) ∧
    s5Config.validate.1.erle.min =
      s5Config.validate.1.erle.max_l.fmin s5Config.validate.1.erle.max_h := by
  decide

theorem rclamp_mem (x : ℚ) {lo hi : ℚ} (h : lo ≤ hi) :
    lo ≤ rclamp x lo hi ∧ rclamp x lo hi ≤ hi := by
  unfold rclamp
  exact ⟨le_max_left _ _, max_le h (min_le_left _ _)⟩

theorem update_erle_band_mem (e n : ℚ) (l : Bool) {lo hi : ℚ} (h : lo ≤ hi) :
    lo ≤ update_erle_band e n l lo hi ∧ update_erle_band e n l lo hi ≤ hi :=
  rclamp_mem _ h

theorem set_max_erle_bands_ge {minE maxL maxH : ℚ} (hL : minE ≤ maxL)
    (hH : minE ≤ maxH) (k : Fin 65) : minE ≤ set_max_erle_bands maxL maxH k := by
  unfold set_max_erle_bands
  split <;> assumption

theorem set_max_erle_bands_edge (maxL maxH : ℚ) :
    set_max_erle_bands maxL maxH 0 = set_max_erle_bands maxL maxH 1 ∧
    set_max_erle_bands maxL maxH 64 = set_max_erle_bands maxL maxH 63 := by
  unfold set_max_erle_bands
  norm_num [Fin.isValue, show ((0 : Fin 65) : ℕ) = 0 from rfl,
    show ((1 : Fin 65) : ℕ) = 1 from rfl,
    show ((63 : Fin 65) : ℕ) = 63 from rfl,
    show ((64 : Fin 65) : ℕ) = 64 from rfl]

theorem SubbandErleEstimator.update_preserves_params {nch : ℕ}
    (s : SubbandErleEstimator nch) (inp : ErleInput nch) :
    (s.update inp).min_erle = s.min_erle ∧
    (s.update inp).max_erle = s.max_erle := by
  simp only [SubbandErleEstimator.update]
  split <;> exact ⟨rfl, rfl⟩

theorem SubbandErleEstimator.update_bands_inv {nch : ℕ}
    (t : SubbandErleEstimator nch) (cf : Fin nch → Bool)
    (hmax : ∀ k, t.min_erle ≤ t.max_erle k) (h100 : t.min_erle ≤ 100000)
    (hinv : ErleBoundsInv t) : ErleBoundsInv (t.update_bands cf) := by
  intro ch k
  show (t.min_erle ≤ _ ∧ _ ≤ t.max_erle k ∧ t.min_erle ≤ _ ∧ _ ≤ 100000)
  simp only [SubbandErleEstimator.update_bands]
  constructor
  · split
    · exact (update_erle_band_mem _ _ _ (hmax k)).1
    · exact (hinv ch k).1
  constructor
  · split
    · exact (update_erle_band_mem _ _ _ (hmax k)).2
    · exact (hinv ch k).2.1
  constructor
  · split
    · exact (update_erle_band_mem _ _ _ h100).1
    · exact (hinv ch k).2.2.1
  · split
    · exact (update_erle_band_mem _ _ _ h100).2
    · exact (hinv ch k).2.2.2

theorem SubbandErleEstimator.copy_edge_bins_inv {nch : ℕ}
    (t : SubbandErleEstimator nch)
    (h01 : t.max_erle 0 = t.max_erle 1) (h64 : t.max_erle 64 = t.max_erle 63)
    (hinv : ErleBoundsInv t) : ErleBoundsInv t.copy_edge_bins := by
  intro ch k
  show (t.min_erle ≤ _ ∧ _ ≤ t.max_erle k ∧ t.min_erle ≤ _ ∧ _ ≤ 100000)
  simp only [SubbandErleEstimator.copy_edge_bins]
  by_cases hk0 : k = (0 : Fin 65)
  · subst hk0
    simp only [if_pos rfl]
    exact ⟨(hinv ch 1).1, h01 ▸ (hinv ch 1).2.1, (hinv ch 1).2.2.1,
      (hinv ch 1).2.2.2⟩
  · by_cases hk64 : k = (64 : Fin 65)
    · subst hk64
      simp only [if_neg hk0, if_pos rfl]
      exact ⟨(hinv ch 63).1, h64 ▸ (hinv ch 63).2.1, (hinv ch 63).2.2.1,
        (hinv ch 63).2.2.2⟩
    · simp only [if_neg hk0, if_neg hk64]
      exact hinv ch k

theorem SubbandErleEstimator.update_inv {nch : ℕ}
    (s : SubbandErleEstimator nch) (inp : ErleInput nch)
    (hmax : ∀ k, s.min_erle ≤ s.max_erle k) (h100 : s.min_erle ≤ 100000)
    (h01 : s.max_erle 0 = s.max_erle 1) (h64 : s.max_erle 64 = s.max_erle 63)
    (hinv : ErleBoundsInv s) : ErleBoundsInv (s.update inp) := by
  have h1 : ErleBoundsInv (s.update_accumulated_spectra inp) := hinv
  have h2 : ErleBoundsInv
      ((s.update_accumulated_spectra inp).update_bands inp.converged_filters) :=
    SubbandErleEstimator.update_bands_inv _ _ hmax h100 h1
  simp only [SubbandErleEstimator.update]
  split
  · exact SubbandErleEstimator.copy_edge_bins_inv _ h01 h64 h2
  · exact SubbandErleEstimator.copy_edge_bins_inv _ h01 h64 h2

theorem SubbandErleEstimator.run_inv {nch : ℕ} {minE : ℚ}
    {maxE : Fin 65 → ℚ} (hmax : ∀ k, minE ≤ maxE k) (h100 : minE ≤ 100000)
    (h01 : maxE 0 = maxE 1) (h64 : maxE 64 = maxE 63) :
    ∀ (L : List (ErleInput nch)) (s : SubbandErleEstimator nch),
      s.min_erle = minE → s.max_erle = maxE → ErleBoundsInv s →
      (s.run L).min_erle = minE ∧ (s.run L).max_erle = maxE ∧
        ErleBoundsInv (s.run L)
  | [], _, h1, h2, h3 => ⟨h1, h2, h3⟩
  | u :: us, s, h1, h2, h3 => by
    have hp := s.update_preserves_params u
    refine SubbandErleEstimator.run_inv hmax h100 h01 h64 us (s.update u)
      (hp.1.trans h1) (hp.2.trans h2) ?_
    refine s.update_inv u ?_ ?_ ?_ ?_ h3
    · intro k
      rw [h1, h2]
      exact hmax k
    · rw [h1]; exact h100
    · rw [h2]; exact h01
    · rw [h2]; exact h64

/-- C3: after any sequence of `update` calls from a freshly constructed
(or equivalently reset) estimator, every stored ERLE value lies in
`[erle.min, max_erle k]`, where `max_erle k` is `erle.max_l` on the lower
half of the bins and `erle.max_h` on the upper half, and every unbounded
ERLE value is at most 100000.  The hypotheses are the configuration
invariants `erle.min ≤ erle.max_l/max_h ≤ 100000` that `validate`
guarantees. -/
theorem subband_erle_estimator_bounds (minE maxL maxH : ℚ) (onset : Bool)
    (nch : ℕ) (hL : minE ≤ maxL) (hH : minE ≤ maxH) (h100 : minE ≤ 100000)
    (inputs : List (ErleInput nch)) (ch : Fin nch) (k : Fin 65) :
    minE ≤ ((SubbandErleEstimator.new minE maxL maxH onset nch).run
        inputs).erle ch k ∧
    ((SubbandErleEstimator.new minE maxL maxH onset nch).run
        inputs).erle ch k ≤ set_max_erle_bands maxL maxH k ∧
    ((SubbandErleEstimator.new minE maxL maxH onset nch).run
        inputs).erle_unbounded ch k ≤ 100000 := by
  have hmax := fun j => set_max_erle_bands_ge hL hH j
  have hedge := set_max_erle_bands_edge maxL maxH
  have hinv0 : ErleBoundsInv (SubbandErleEstimator.new minE maxL maxH onset nch) := by
    intro ch' k'
    exact ⟨le_refl _, set_max_erle_bands_ge hL hH k', le_refl _, h100⟩
  have := SubbandErleEstimator.run_inv hmax h100 hedge.1 hedge.2 inputs
    (SubbandErleEstimator.new minE maxL maxH onset nch) rfl rfl hinv0
  obtain ⟨hm, hM, hI⟩ := this
  have h := hI ch k
  rw [hm, hM] at h
  exact ⟨h.1, h.2.1, h.2.2.2⟩

/-- Closed-form witness for `subband_erle_estimator_bounds`. -/
theorem subband_erle_estimator_bounds_witness :
    (1 : ℚ) ≤ 4 ∧ (1 : ℚ) ≤ 2 ∧ (1 : ℚ) ≤ 100000 ∧
    (1 ≤ ((SubbandErleEstimator.new 1 4 2 true 1).run []).erle 0 0 ∧
     ((SubbandErleEstimator.new 1 4 2 true 1).run []).erle 0 0 ≤
       set_max_erle_bands 4 2 0 ∧
     ((SubbandErleEstimator.new 1 4 2 true 1).run []).erle_unbounded 0 0 ≤
       100000) :=
  ⟨by decide, by decide, by decide,
   subband_erle_estimator_bounds 1 4 2 true 1 (by decide) (by decide)
     (by decide) [] 0 0⟩

theorem SubbandErleEstimator.update_accum_eq {nch : ℕ}
    (s : SubbandErleEstimator nch) (inp : ErleInput nch) :
    (s.update inp).accum_y2 = (s.update_accumulated_spectra inp).accum_y2 ∧
    (s.update inp).accum_e2 = (s.update_accumulated_spectra inp).accum_e2 ∧
    (s.update inp).accum_low_render_energy =
      (s.update_accumulated_spectra inp).accum_low_render_energy ∧
    (s.update inp).accum_num_points =
      (s.update_accumulated_spectra inp).accum_num_points := by
  simp only [SubbandErleEstimator.update]
  split <;> exact ⟨rfl, rfl, rfl, rfl⟩

theorem SubbandErleEstimator.update_accum_char {nch : ℕ}
    (s : SubbandErleEstimator nch) (inp : ErleInput nch) (ch : Fin nch)
    (hc : inp.converged_filters ch = true)
    (hne : s.accum_num_points ch ≠ POINTS_TO_ACCUMULATE) :
    (s.update inp).accum_num_points ch = s.accum_num_points ch + 1 ∧
    (∀ k, (s.update inp).accum_y2 ch k = s.accum_y2 ch k + inp.y2 ch k) ∧
    (∀ k, (s.update inp).accum_e2 ch k = s.accum_e2 ch k + inp.e2 ch k) ∧
    (∀ k, (s.update inp).accum_low_render_energy ch k =
      (s.accum_low_render_energy ch k ||
        decide (inp.x2 k < X2_BAND_ENERGY_THRESHOLD))) := by
  obtain ⟨hy, he, hl, hn⟩ := s.update_accum_eq inp
  rw [hy, he, hl, hn]
  simp [SubbandErleEstimator.update_accumulated_spectra, hc, hne]

theorem interiorBin_ne_edges {k : Fin 65} (hk : interiorBin k) :
    k ≠ (0 : Fin 65) ∧ k ≠ (64 : Fin 65) := by
  obtain ⟨h1, h2⟩ := hk
  constructor
  · intro h
    subst h
    exact absurd h1 (by decide)
  · intro h
    subst h
    exact absurd h2 (by decide)

theorem SubbandErleEstimator.update_erle_frozen {nch : ℕ}
    (s : SubbandErleEstimator nch) (inp : ErleInput nch) (ch : Fin nch)
    (hc : inp.converged_filters ch = true)
    (hne : s.accum_num_points ch ≠ POINTS_TO_ACCUMULATE)
    (hne2 : s.accum_num_points ch + 1 ≠ POINTS_TO_ACCUMULATE)
    (k : Fin 65) (hk : interiorBin k) :
    (s.update inp).erle ch k = s.erle ch k := by
  have hacc : (s.update_accumulated_spectra inp).accum_num_points ch =
      s.accum_num_points ch + 1 := by
    simp [SubbandErleEstimator.update_accumulated_spectra, hc, hne]
  obtain ⟨hk0, hk64⟩ := interiorBin_ne_edges hk
  have hactive : ¬((inp.converged_filters ch = true ∧
      (s.update_accumulated_spectra inp).accum_num_points ch =
        POINTS_TO_ACCUMULATE) ∧
      (interiorBin k ∧
        0 < (s.update_accumulated_spectra inp).accum_e2 ch k)) := by
    rintro ⟨⟨_, h6⟩, _⟩
    rw [hacc] at h6
    exact hne2 h6
  simp only [SubbandErleEstimator.update]
  split <;>
  · simp only [SubbandErleEstimator.copy_edge_bins,
      SubbandErleEstimator.decrease_erle_per_band_for_low_render_signals,
      SubbandErleEstimator.update_bands, if_neg hk0, if_neg hk64,
      if_neg hactive]
    rfl

theorem SubbandErleEstimator.update_erle_fire {nch : ℕ}
    (s : SubbandErleEstimator nch) (inp : ErleInput nch) (ch : Fin nch)
    (hc : inp.converged_filters ch = true)
    (h5 : s.accum_num_points ch + 1 = POINTS_TO_ACCUMULATE)
    (k : Fin 65) (hk : interiorBin k) :
    (s.update inp).erle ch k =
      if 0 < s.accum_e2 ch k + inp.e2 ch k then
        update_erle_band (s.erle ch k)
          ((s.accum_y2 ch k + inp.y2 ch k) /
            (s.accum_e2 ch k + inp.e2 ch k))
          (s.accum_low_render_energy ch k ||
            decide (inp.x2 k < X2_BAND_ENERGY_THRESHOLD))
          s.min_erle (s.max_erle k)
      else s.erle ch k := by
  have hne : s.accum_num_points ch ≠ POINTS_TO_ACCUMULATE := by
    intro h
    rw [h] at h5
    simp [POINTS_TO_ACCUMULATE] at h5
  have hacc : (s.update_accumulated_spectra inp).accum_num_points ch =
      POINTS_TO_ACCUMULATE := by
    simp [SubbandErleEstimator.update_accumulated_spectra, hc, hne, h5]
  have hae : (s.update_accumulated_spectra inp).accum_e2 ch k =
      s.accum_e2 ch k + inp.e2 ch k := by
    simp [SubbandErleEstimator.update_accumulated_spectra, hc, hne]
  have hay : (s.update_accumulated_spectra inp).accum_y2 ch k =
      s.accum_y2 ch k + inp.y2 ch k := by
    simp [SubbandErleEstimator.update_accumulated_spectra, hc, hne]
  have hal : (s.update_accumulated_spectra inp).accum_low_render_energy ch k =
      (s.accum_low_render_energy ch k ||
        decide (inp.x2 k < X2_BAND_ENERGY_THRESHOLD)) := by
    simp [SubbandErleEstimator.update_accumulated_spectra, hc, hne]
  obtain ⟨hk0, hk64⟩ := interiorBin_ne_edges hk
  simp only [SubbandErleEstimator.update]
  split <;>
  · simp only [SubbandErleEstimator.copy_edge_bins,
      SubbandErleEstimator.decrease_erle_per_band_for_low_render_signals,
      SubbandErleEstimator.update_bands, if_neg hk0, if_neg hk64]
    rw [hae, hay, hal]
    by_cases hpos : 0 < s.accum_e2 ch k + inp.e2 ch k
    · rw [if_pos ⟨⟨hc, hacc⟩, hk, hae.symm ▸ hpos⟩, if_pos hpos]
      rfl
    · rw [if_neg ?_, if_neg hpos]
      · rfl
      rintro ⟨-, ⟨-, hp⟩⟩
      exact hpos hp

theorem SubbandErleEstimator.update_edge_copy {nch : ℕ}
    (s : SubbandErleEstimator nch) (inp : ErleInput nch) (ch : Fin nch) :
    (s.update inp).erle ch 0 = (s.update inp).erle ch 1 ∧
    (s.update inp).erle ch 64 = (s.update inp).erle ch 63 := by
  simp only [SubbandErleEstimator.update]
  split <;>
    (constructor <;>
      simp [SubbandErleEstimator.copy_edge_bins, Fin.ext_iff,
        show ((0 : Fin 65) : ℕ) = 0 from rfl,
        show ((1 : Fin 65) : ℕ) = 1 from rfl,
        show ((63 : Fin 65) : ℕ) = 63 from rfl,
        show ((64 : Fin 65) : ℕ) = 64 from rfl])

/-- C4: starting from a fresh estimator, a channel whose converged flag
stays `true` accumulates the per-bin `(y2, e2)` pairs over exactly
`POINTS_TO_ACCUMULATE = 6` update calls: the first five calls leave the
interior ERLE at `erle.min`; the sixth call, whenever the accumulated `e2`
of a bin is positive, moves the ERLE toward
`new_erle = y2_sum / e2_sum` with step `α = 1/10` when `new_erle` is below
the current value (`α = 0` if additionally the accumulated render energy
was low in that bin) and `α = 1/20` otherwise, clamped into
`[erle.min, max_erle k]`; finally bins 0 and 64 are copies of bins 1 and
63. -/
theorem subband_erle_six_point_update
    (minE maxL maxH : ℚ) (onset : Bool) (nch : ℕ)
    (u1 u2 u3 u4 u5 u6 : ErleInput nch) (ch : Fin nch)
    (hc1 : u1.converged_filters ch = true)
    (hc2 : u2.converged_filters ch = true)
    (hc3 : u3.converged_filters ch = true)
    (hc4 : u4.converged_filters ch = true)
    (hc5 : u5.converged_filters ch = true)
    (hc6 : u6.converged_filters ch = true)
    (s5 s6 : SubbandErleEstimator nch)
    (hs5 : s5 = (((((SubbandErleEstimator.new minE maxL maxH onset
        nch).update u1).update u2).update u3).update u4).update u5)
    (hs6 : s6 = s5.update u6) :
    (∀ k, interiorBin k → s5.erle ch k = minE) ∧
    s5.accum_num_points ch = 5 ∧
    s6.accum_num_points ch = POINTS_TO_ACCUMULATE ∧
    (∀ k, interiorBin k →
      (0 < u1.e2 ch k + u2.e2 ch k + u3.e2 ch k + u4.e2 ch k + u5.e2 ch k
          + u6.e2 ch k →
        s6.erle ch k =
          rclamp (minE +
            (if (u1.y2 ch k + u2.y2 ch k + u3.y2 ch k + u4.y2 ch k
                  + u5.y2 ch k + u6.y2 ch k) /
                (u1.e2 ch k + u2.e2 ch k + u3.e2 ch k + u4.e2 ch k
                  + u5.e2 ch k + u6.e2 ch k) < minE then
              (if decide (u1.x2 k < X2_BAND_ENERGY_THRESHOLD) ||
                  decide (u2.x2 k < X2_BAND_ENERGY_THRESHOLD) ||
                  decide (u3.x2 k < X2_BAND_ENERGY_THRESHOLD) ||
                  decide (u4.x2 k < X2_BAND_ENERGY_THRESHOLD) ||
                  decide (u5.x2 k < X2_BAND_ENERGY_THRESHOLD) ||
                  decide (u6.x2 k < X2_BAND_ENERGY_THRESHOLD)
               then 0 else 1/10)
             else 1/20) *
            ((u1.y2 ch k + u2.y2 ch k + u3.y2 ch k + u4.y2 ch k + u5.y2 ch k
                + u6.y2 ch k) /
              (u1.e2 ch k + u2.e2 ch k + u3.e2 ch k + u4.e2 ch k + u5.e2 ch k
                + u6.e2 ch k) - minE))
            minE (set_max_erle_bands maxL maxH k)) ∧
      (¬ 0 < u1.e2 ch k + u2.e2 ch k + u3.e2 ch k + u4.e2 ch k + u5.e2 ch k
          + u6.e2 ch k →
        s6.erle ch k = minE)) ∧
    s6.erle ch 0 = s6.erle ch 1 ∧ s6.erle ch 64 = s6.erle ch 63 := by
  set s0 := SubbandErleEstimator.new minE maxL maxH onset nch with hs0
  have hn0 : s0.accum_num_points ch = 0 := rfl
  have hne0 : s0.accum_num_points ch ≠ POINTS_TO_ACCUMULATE := by
    rw [hn0]; decide
  have A1 := s0.update_accum_char u1 ch hc1 hne0
  have hn1 : (s0.update u1).accum_num_points ch = 1 := by
    rw [A1.1, hn0]; decide
  have hne1 : (s0.update u1).accum_num_points ch ≠ POINTS_TO_ACCUMULATE := by
    rw [hn1]; decide
  have A2 := (s0.update u1).update_accum_char u2 ch hc2 hne1
  have hn2 : ((s0.update u1).update u2).accum_num_points ch = 2 := by
    rw [A2.1, hn1]; decide
  have hne2 : ((s0.update u1).update u2).accum_num_points ch ≠
      POINTS_TO_ACCUMULATE := by rw [hn2]; decide
  have A3 := ((s0.update u1).update u2).update_accum_char u3 ch hc3 hne2
  have hn3 : (((s0.update u1).update u2).update u3).accum_num_points ch = 3 := by
    rw [A3.1, hn2]; decide
  have hne3 : (((s0.update u1).update u2).update u3).accum_num_points ch ≠
      POINTS_TO_ACCUMULATE := by rw [hn3]; decide
  have A4 := (((s0.update u1).update u2).update u3).update_accum_char u4 ch
    hc4 hne3
  have hn4 : ((((s0.update u1).update u2).update u3).update
      u4).accum_num_points ch = 4 := by rw [A4.1, hn3]; decide
  have hne4 : ((((s0.update u1).update u2).update u3).update
      u4).accum_num_points ch ≠ POINTS_TO_ACCUMULATE := by rw [hn4]; decide
  have A5 := ((((s0.update u1).update u2).update u3).update
      u4).update_accum_char u5 ch hc5 hne4
  have hn5 : s5.accum_num_points ch = 5 := by rw [hs5, A5.1, hn4]; decide
  have hne5 : s5.accum_num_points ch ≠ POINTS_TO_ACCUMULATE := by
    rw [hn5]; decide
  have h5fire : s5.accum_num_points ch + 1 = POINTS_TO_ACCUMULATE := by
    rw [hn5]; decide
  have A6 := by
    have := s5.update_accum_char u6 ch hc6 hne5
    exact this
  have hn6 : s6.accum_num_points ch = POINTS_TO_ACCUMULATE := by
    rw [hs6, A6.1, hn5]; decide
  -- parameters are preserved along updates
  have hp1 := s0.update_preserves_params u1
  have hp2 := (s0.update u1).update_preserves_params u2
  have hp3 := ((s0.update u1).update u2).update_preserves_params u3
  have hp4 := (((s0.update u1).update u2).update u3).update_preserves_params u4
  have hp5 := ((((s0.update u1).update u2).update u3).update
      u4).update_preserves_params u5
  have hminE : s5.min_erle = minE := by
    rw [hs5, hp5.1, hp4.1, hp3.1, hp2.1, hp1.1]; rfl
  have hmaxE : s5.max_erle = set_max_erle_bands maxL maxH := by
    rw [hs5, hp5.2, hp4.2, hp3.2, hp2.2, hp1.2]; rfl
  -- the interior ERLE does not move during the first five updates
  have hfrozen : ∀ k, interiorBin k → s5.erle ch k = minE := by
    intro k hk
    have f1 := s0.update_erle_frozen u1 ch hc1 hne0 (by rw [hn0]; decide) k hk
    have f2 := (s0.update u1).update_erle_frozen u2 ch hc2 hne1
      (by rw [hn1]; decide) k hk
    have f3 := ((s0.update u1).update u2).update_erle_frozen u3 ch hc3 hne2
      (by rw [hn2]; decide) k hk
    have f4 := (((s0.update u1).update u2).update u3).update_erle_frozen u4
      ch hc4 hne3 (by rw [hn3]; decide) k hk
    have f5 := ((((s0.update u1).update u2).update u3).update
      u4).update_erle_frozen u5 ch hc5 hne4 (by rw [hn4]; decide) k hk
    rw [hs5, f5, f4, f3, f2, f1]
    rfl
  refine ⟨hfrozen, hn5, hn6, ?_, ?_⟩
  · intro k hk
    -- accumulated sums after five updates
    have hy5 : s5.accum_y2 ch k =
        u1.y2 ch k + u2.y2 ch k + u3.y2 ch k + u4.y2 ch k + u5.y2 ch k := by
      rw [hs5, A5.2.1 k, A4.2.1 k, A3.2.1 k, A2.2.1 k, A1.2.1 k]
      show (0 : ℚ) + _ + _ + _ + _ + _ = _
      ring
    have he5 : s5.accum_e2 ch k =
        u1.e2 ch k + u2.e2 ch k + u3.e2 ch k + u4.e2 ch k + u5.e2 ch k := by
      rw [hs5, A5.2.2.1 k, A4.2.2.1 k, A3.2.2.1 k, A2.2.2.1 k, A1.2.2.1 k]
      show (0 : ℚ) + _ + _ + _ + _ + _ = _
      ring
    have hl5 : s5.accum_low_render_energy ch k =
        (decide (u1.x2 k < X2_BAND_ENERGY_THRESHOLD) ||
         decide (u2.x2 k < X2_BAND_ENERGY_THRESHOLD) ||
         decide (u3.x2 k < X2_BAND_ENERGY_THRESHOLD) ||
         decide (u4.x2 k < X2_BAND_ENERGY_THRESHOLD) ||
         decide (u5.x2 k < X2_BAND_ENERGY_THRESHOLD)) := by
      rw [hs5, A5.2.2.2 k, A4.2.2.2 k, A3.2.2.2 k, A2.2.2.2 k, A1.2.2.2 k]
      show (false || _ || _ || _ || _ || _) = _
      simp
    have hfire := s5.update_erle_fire u6 ch hc6 h5fire k hk
    rw [hs6, hfire, hy5, he5, hl5, hfrozen k hk, hminE, hmaxE]
    constructor
    · intro hpos
      rw [if_pos (by linarith [hpos])]
      unfold update_erle_band
      ring_nf
    · intro hneg
      rw [if_neg (by intro hp; exact hneg (by linarith [hp]))]
  · rw [hs6]
    exact s5.update_edge_copy u6 ch

theorem hmm_false_eq (p : ℚ) (h0 : 0 ≤ p) :
    hmmPosteriorStep false p =
      999 * (1 + 999998 * p) / (990000009 + 8999982 * p) := by
  have hd : (0:ℚ) < 990000009 + 8999982 * p := by linarith
  have hd2 : (0:ℚ) <
      (1 - ((1 - p) * (1/1000000) + p * (1 - 1/1000000))) * (1 - 1/100) +
      ((1 - p) * (1/1000000) + p * (1 - 1/1000000)) * (1 - 1/1000) := by
    nlinarith
  unfold hmmPosteriorStep
  simp only [Bool.false_eq_true, if_false]
  rw [div_eq_div_iff (ne_of_gt hd2) (ne_of_gt hd)]
  ring

theorem hmm_true_eq (p : ℚ) (h1 : p ≤ 1) :
    hmmPosteriorStep true p =
      (1 + 999998 * p) / (9999991 - 8999982 * p) := by
  have hd : (0:ℚ) < 9999991 - 8999982 * p := by linarith
  have hd2 : (0:ℚ) <
      (1 - ((1 - p) * (1/1000000) + p * (1 - 1/1000000))) * (1/100) +
      ((1 - p) * (1/1000000) + p * (1 - 1/1000000)) * (1/1000) := by
    nlinarith
  unfold hmmPosteriorStep
  simp only [if_true]
  rw [div_eq_div_iff (ne_of_gt hd2) (ne_of_gt hd)]
  ring

theorem hmm_inc_step {p : ℚ} (h1 : 1/5 ≤ p) (h2 : p ≤ 19/20) :
    p + 1/2500 ≤ hmmPosteriorStep false p := by
  rw [hmm_false_eq p (by linarith)]
  have hd : (0:ℚ) < 990000009 + 8999982 * p := by linarith
  rw [le_div_iff hd]
  nlinarith [mul_nonneg (by linarith : (0:ℚ) ≤ p - 1/5)
    (by linarith : (0:ℚ) ≤ 19/20 - p)]

theorem hmm_dec_step {p : ℚ} (h1 : 1/20 ≤ p) (h2 : p ≤ 1) :
    hmmPosteriorStep true p ≤ p - 1/1000000 := by
  rw [hmm_true_eq p h2]
  have hd : (0:ℚ) < 9999991 - 8999982 * p := by linarith
  rw [div_le_iff hd]
  nlinarith [mul_nonneg (by linarith : (0:ℚ) ≤ p - 1/20)
    (by linarith : (0:ℚ) ≤ 1 - p)]

theorem hmm_dec_range {p : ℚ} (h0 : 0 < p) (h1 : p ≤ 1) :
    0 < hmmPosteriorStep true p ∧ hmmPosteriorStep true p ≤ 1 := by
  rw [hmm_true_eq p h1]
  have hd : (0:ℚ) < 9999991 - 8999982 * p := by linarith
  constructor
  · exact div_pos (by linarith) hd
  · rw [div_le_one hd]
    linarith

theorem hmm_dec_stay {p : ℚ} (h0 : 0 < p) (h1 : p ≤ 1/20) :
    hmmPosteriorStep true p < 1/20 := by
  rw [hmm_true_eq p (by linarith)]
  have hd : (0:ℚ) < 9999991 - 8999982 * p := by linarith
  rw [div_lt_iff hd]
  linarith

theorem hmm_up_invariant (r : ℝ) (hr1 : 19/20 < r) (hr2 : r < 1)
    (hroot : 8999982 * r ^ 2 - 8997993 * r - 999 = 0) (p : ℚ)
    (hp0 : 0 < p) (hpr : (p : ℝ) < r) :
    (p : ℝ) < ((hmmPosteriorStep false p : ℚ) : ℝ) ∧
    ((hmmPosteriorStep false p : ℚ) : ℝ) < r ∧
    (0 : ℚ) < hmmPosteriorStep false p := by
  have hp0' : (0:ℝ) < (p : ℝ) := by exact_mod_cast hp0
  have hcast : ((hmmPosteriorStep false p : ℚ) : ℝ) =
      999 * (1 + 999998 * (p:ℝ)) / (990000009 + 8999982 * (p:ℝ)) := by
    rw [hmm_false_eq p (le_of_lt hp0)]
    push_cast
    ring
  have hd : (0:ℝ) < 990000009 + 8999982 * (p:ℝ) := by nlinarith
  have hrpos : (0:ℝ) < r := by linarith
  have hfac : (0:ℝ) < 8999982 * r - 8997993 := by nlinarith
  refine ⟨?_, ?_, ?_⟩
  · rw [hcast, lt_div_iff hd]
    nlinarith [mul_pos (sub_pos.2 hpr) (by nlinarith :
      (0:ℝ) < 8999982 * ((p:ℝ) + r) - 8997993)]
  · rw [hcast, div_lt_iff hd]
    nlinarith [mul_pos (sub_pos.2 hpr)
      (by nlinarith : (0:ℝ) < 998998002 - 8999982 * r)]
  · have : (0:ℝ) < ((hmmPosteriorStep false p : ℚ) : ℝ) := by
      rw [hcast]
      exact div_pos (by nlinarith) hd
    exact_mod_cast this

theorem hmm_root_exists :
    ∃ r : ℝ, 19/20 < r ∧ r < 1 ∧
      8999982 * r ^ 2 - 8997993 * r - 999 = 0 := by
  have hcont : ContinuousOn (fun x : ℝ => 8999982 * x ^ 2 - 8997993 * x - 999)
      (Set.Icc (19/20 : ℝ) 1) := by
    fun_prop
  have hle : (19/20 : ℝ) ≤ 1 := by norm_num
  have hmem : (0:ℝ) ∈ Set.Icc
      ((fun x : ℝ => 8999982 * x ^ 2 - 8997993 * x - 999) (19/20))
      ((fun x : ℝ => 8999982 * x ^ 2 - 8997993 * x - 999) 1) := by
    constructor <;> norm_num
  obtain ⟨r, hr_mem, hr_eq⟩ := intermediate_value_Icc hle hcont hmem
  refine ⟨r, ?_, ?_, hr_eq⟩
  · rcases lt_or_eq_of_le hr_mem.1 with h | h
    · exact h
    · exfalso
      rw [← h] at hr_eq
      norm_num at hr_eq
  · rcases lt_or_eq_of_le hr_mem.2 with h | h
    · exact h
    · exfalso
      rw [h] at hr_eq
      norm_num at hr_eq

theorem hmm_prob_seq_bounds :
    ∃ r : ℝ, 19/20 < r ∧ r < 1 ∧
      ∀ n, 0 < hmmProbSeq n ∧ ((hmmProbSeq n : ℚ) : ℝ) < r ∧
        hmmProbSeq n < hmmProbSeq (n + 1) := by
  obtain ⟨r, hr1, hr2, hroot⟩ := hmm_root_exists
  refine ⟨r, hr1, hr2, ?_⟩
  have key : ∀ n, 0 < hmmProbSeq n ∧ ((hmmProbSeq n : ℚ) : ℝ) < r := by
    intro n
    induction n with
    | zero =>
      refine ⟨by norm_num [hmmProbSeq, INITIAL_TRANSPARENT_STATE_PROBABILITY], ?_⟩
      show ((INITIAL_TRANSPARENT_STATE_PROBABILITY : ℚ) : ℝ) < r
      have : ((INITIAL_TRANSPARENT_STATE_PROBABILITY : ℚ) : ℝ) = 1/5 := by
        norm_num [INITIAL_TRANSPARENT_STATE_PROBABILITY]
      rw [this]
      linarith
    | succ n ih =>
      have h := hmm_up_invariant r hr1 hr2 hroot (hmmProbSeq n) ih.1 ih.2
      exact ⟨h.2.2, h.2.1⟩
  intro n
  have h := hmm_up_invariant r hr1 hr2 hroot (hmmProbSeq n) (key n).1 (key n).2
  refine ⟨(key n).1, (key n).2, ?_⟩
  exact_mod_cast h.1

theorem hmm_prob_seq_mono : ∀ n, hmmProbSeq n < hmmProbSeq (n + 1) := by
  obtain ⟨r, _, _, h⟩ := hmm_prob_seq_bounds
  exact fun n => (h n).2.2

theorem hmm_prob_seq_ge : ∀ m n, n ≤ m → hmmProbSeq n ≤ hmmProbSeq m := by
  intro m
  induction m with
  | zero =>
    intro n hn
    rw [Nat.le_zero.1 hn]
  | succ m ih =>
    intro n hn
    rcases Nat.lt_or_ge n (m + 1) with h | h
    · exact le_trans (ih n (Nat.lt_succ_iff.1 h)) (le_of_lt (hmm_prob_seq_mono m))
    · rw [Nat.le_antisymm hn h]

theorem hmm_prob_seq_progress :
    ∀ K : ℕ, (∀ k, k ≤ K → hmmProbSeq k ≤ 19/20) →
      1/5 + (K : ℚ) * (1/2500) ≤ hmmProbSeq K := by
  intro K
  induction K with
  | zero =>
    intro _
    norm_num [hmmProbSeq, INITIAL_TRANSPARENT_STATE_PROBABILITY]
  | succ K ih =>
    intro h
    have hK := ih (fun k hk => h k (Nat.le_succ_of_le hk))
    have h1 : 1/5 ≤ hmmProbSeq K := by
      have : (0:ℚ) ≤ (K : ℚ) * (1/2500) := by positivity
      linarith
    have h2 : hmmProbSeq K ≤ 19/20 := h K (Nat.le_succ K)
    have step := hmm_inc_step h1 h2
    have hrw : hmmProbSeq (K + 1) = hmmPosteriorStep false (hmmProbSeq K) := rfl
    rw [hrw]
    push_cast
    linarith

theorem hmm_prob_crossing : ∃ N, 19/20 < hmmProbSeq N := by
  by_contra h
  push_neg at h
  have := hmm_prob_seq_progress 1880 (fun k _ => h k)
  have hle : hmmProbSeq 1880 ≤ 19/20 := h 1880
  norm_num at this
  linarith

theorem hmm_state_seq_prob : ∀ n,
    (hmmStateSeq n).prob_transparent_state = hmmProbSeq n := by
  intro n
  induction n with
  | zero => rfl
  | succ n ih =>
    show (HmmTransparentMode.update _ false true).prob_transparent_state = _
    unfold HmmTransparentMode.update
    simp [ih, hmmProbSeq]

theorem hmm_dec_seq_range (p0 : ℚ) (h0 : 0 < p0) (h1 : p0 ≤ 1) :
    ∀ n, 0 < hmmDecSeq p0 n ∧ hmmDecSeq p0 n ≤ 1 := by
  intro n
  induction n with
  | zero => exact ⟨h0, h1⟩
  | succ n ih => exact hmm_dec_range ih.1 ih.2

theorem hmm_dec_seq_progress (p0 : ℚ) (h0 : 0 < p0) (h1 : p0 ≤ 1) :
    ∀ K : ℕ, (∀ k, k ≤ K → 1/20 ≤ hmmDecSeq p0 k) →
      hmmDecSeq p0 K ≤ p0 - (K : ℚ) * (1/1000000) := by
  intro K
  induction K with
  | zero =>
    intro _
    norm_num [hmmDecSeq]
  | succ K ih =>
    intro h
    have hK := ih (fun k hk => h k (Nat.le_succ_of_le hk))
    have step := hmm_dec_step (h K (Nat.le_succ K))
      (hmm_dec_seq_range p0 h0 h1 K).2
    have hrw : hmmDecSeq p0 (K + 1) = hmmPosteriorStep true (hmmDecSeq p0 K) := rfl
    rw [hrw]
    push_cast
    linarith

theorem hmm_dec_crossing (p0 : ℚ) (h0 : 0 < p0) (h1 : p0 ≤ 1) :
    ∃ N, hmmDecSeq p0 N < 1/20 := by
  by_contra h
  push_neg at h
  have := hmm_dec_seq_progress p0 h0 h1 1000000 (fun k _ => h k)
  have hpos := (hmm_dec_seq_range p0 h0 h1 1000000).1
  norm_num at this
  linarith

/-- C5: under constant `(any_coarse_filter_converged = false, active_render
= true)` input from the initial posterior 0.2, the posterior strictly
increases at every step and eventually stays above the 0.95 activation
threshold, from which point the classifier reports transparency; under
constant `(converged = true, active_render = true)` input from any
posterior in `(0, 1]` the posterior eventually stays below 1/20 (far
below the 0.5 deactivation threshold), approaching 0. -/
theorem hmm_transparent_mode_convergence (p0 : ℚ) (hp0 : 0 < p0)
    (hp1 : p0 ≤ 1) :
    (∀ n, hmmProbSeq n < hmmProbSeq (n + 1)) ∧
    (∃ N, ∀ n, N ≤ n → 19/20 < hmmProbSeq n ∧
      (hmmStateSeq n).transparency_activated = true) ∧
    (∃ N, ∀ n, N ≤ n → hmmDecSeq p0 n < 1/20) := by
  refine ⟨hmm_prob_seq_mono, ?_, ?_⟩
  · obtain ⟨N, hN⟩ := hmm_prob_crossing
    refine ⟨N + 1, ?_⟩
    intro n hn
    have hgt : 19/20 < hmmProbSeq n :=
      lt_of_lt_of_le hN (hmm_prob_seq_ge n N (by omega))
    refine ⟨hgt, ?_⟩
    obtain ⟨m, rfl⟩ : ∃ m, n = m + 1 := ⟨n - 1, by omega⟩
    show ((hmmStateSeq m).update false true).transparency_activated = true
    unfold HmmTransparentMode.update
    have hp : hmmPosteriorStep false (hmmStateSeq m).prob_transparent_state =
        hmmProbSeq (m + 1) := by
      rw [hmm_state_seq_prob m]
      rfl
    simp only [Bool.not_true, Bool.false_eq_true, if_false, hp]
    rw [if_pos hgt]
  · obtain ⟨N, hN⟩ := hmm_dec_crossing p0 hp0 hp1
    refine ⟨N, ?_⟩
    intro n hn
    induction n with
    | zero =>
      rw [Nat.le_zero.1 hn] at hN
      exact hN
    | succ n ih =>
      rcases Nat.lt_or_ge N (n + 1) with h | h
      · have hlt := ih (by omega)
        have hpos := (hmm_dec_seq_range p0 hp0 hp1 n).1
        exact hmm_dec_stay hpos (le_of_lt hlt)
      · rw [Nat.le_antisymm hn h] at hN
        exact hN

/-- Closed-form witness for `hmm_transparent_mode_convergence`. -/
theorem hmm_transparent_mode_convergence_witness :
    (0 : ℚ) < 1 ∧ (1 : ℚ) ≤ 1 ∧
    (∀ n, hmmProbSeq n < hmmProbSeq (n + 1)) :=
  ⟨by decide, by decide,
   (hmm_transparent_mode_convergence 1 (by decide) (by decide)).1⟩

/-- Pointwise effect of one partition accumulation: every bin (the lower
64 through the first loop, the Nyquist bin through the tail statement)
receives exactly one addition of the partition's value. -/
theorem accumulate_partition_apply (erl h2_j : Fin 65 → ℚ) (k : Fin 65) :
    accumulate_partition erl h2_j k = erl k + h2_j k := by
  unfold accumulate_partition
  by_cases h : (k : ℕ) < 64
  · have h64 : ¬((k : ℕ) = 64) := by omega
    simp [h, h64]
  · have h64 : (k : ℕ) = 64 := by omega
    simp [h, h64]

/-- Left fold of `accumulate_partition` over any partition list adds, bin
by bin, the sum of the partitions' values to the initial array. -/
theorem compute_erl_foldl (L : List (Fin 65 → ℚ)) :
    ∀ (init : Fin 65 → ℚ) (k : Fin 65),
      (L.foldl accumulate_partition init) k =
        init k + (L.map (fun h2_j => h2_j k)).sum := by
  induction L with
  | nil => intro init k; simp
  | cons p t ih =>
    intro init k
    simp only [List.foldl_cons, List.map_cons, List.sum_cons]
    rw [ih, accumulate_partition_apply]
    ring

/-- **C8.** For every list of partition squared-magnitude spectra `H2`
(any number of partitions, including zero) and every bin `k`,
`compute_erl` with the scalar backend returns exactly the sum over
partitions of `H2[p][k]`. -/
theorem compute_erl_is_partition_sum (h2 : List (Fin 65 → ℚ)) (k : Fin 65) :
    compute_erl h2 k = (h2.map (fun h2_p => h2_p k)).sum := by
  unfold compute_erl
  rw [compute_erl_foldl]
  simp

/-- Composing PRNG draws: drawing `a + b` times is drawing `a` times and
then `b` more. -/
theorem seedAfter_add (s a : ℕ) (b : ℕ) :
    seedAfter s (a + b) = seedAfter (seedAfter s a) b := by
  induction b with
  | zero => rfl
  | succ b ih =>
    show lcgStep (seedAfter s (a + b)) = lcgStep (seedAfter (seedAfter s a) b)
    rw [ih]

/-- The channel loop threads the seed: folding the per-channel generation
over any channel list advances the seed by 63 draws per channel. -/
theorem genChannels_foldl_seed {nch : ℕ} (sq : ℚ → ℚ)
    (est : Fin nch → ℕ → ℚ) (L : List (Fin nch)) :
    ∀ acc : (Fin nch → FftData) × (Fin nch → FftData) × ℕ,
      (L.foldl (fun acc ch =>
        let g := generate_comfort_noise sq (est ch) acc.2.2 (acc.1 ch)
          (acc.2.1 ch)
        (Function.update acc.1 ch g.1, Function.update acc.2.1 ch g.2.1,
          g.2.2)) acc).2.2 = seedAfter acc.2.2 (63 * L.length) := by
  induction L with
  | nil => intro acc; rfl
  | cons ch t ih =>
    intro acc
    rw [List.foldl_cons, ih]
    show seedAfter (seedAfter acc.2.2 63) (63 * t.length) =
      seedAfter acc.2.2 (63 * (t.length + 1))
    rw [← seedAfter_add]
    congr 1
    ring

/-- The seed returned by `genChannels` is the input seed advanced by
`63 * nch` draws. -/
theorem genChannels_seed {nch : ℕ} (sq : ℚ → ℚ) (est : Fin nch → ℕ → ℚ)
    (seed : ℕ) (lower upper : Fin nch → FftData) :
    (genChannels sq est seed lower upper).2.2 = seedAfter seed (63 * nch) := by
  unfold genChannels
  rw [genChannels_foldl_seed]
  rw [List.length_finRange]

/-- **C10.** `ComfortNoiseGenerator::compute` with `saturated_capture =
true` leaves the whole noise-tracking state unchanged — `y2_smoothed`,
`n2`, `n2_initial`, the warm-up counter and the noise floor keep their
previous values and no flooring is applied to the estimates — while the
comfort noise is still generated from the previous estimate
(`n2_initial` while present, `n2` afterwards) and only the PRNG seed
advances, by the 63 draws of each of the `nch` channels. -/
theorem comfort_noise_saturated_compute {nch : ℕ}
    (s : ComfortNoiseGenerator nch) (capture_spectrum : Fin nch → ℕ → ℚ)
    (lower upper : Fin nch → FftData) (sq : ℚ → ℚ) :
    (s.compute true capture_spectrum lower upper sq).1.y2_smoothed =
      s.y2_smoothed ∧
    (s.compute true capture_spectrum lower upper sq).1.n2 = s.n2 ∧
    (s.compute true capture_spectrum lower upper sq).1.n2_initial =
      s.n2_initial ∧
    (s.compute true capture_spectrum lower upper sq).1.n2_counter =
      s.n2_counter ∧
    (s.compute true capture_spectrum lower upper sq).1.noise_floor =
      s.noise_floor ∧
    (s.compute true capture_spectrum lower upper sq).2 =
      ((genChannels sq s.estimate s.seed lower upper).1,
        (genChannels sq s.estimate s.seed lower upper).2.1) ∧
    (s.compute true capture_spectrum lower upper sq).1.seed =
      seedAfter s.seed (63 * nch) := by
  refine ⟨rfl, rfl, rfl, rfl, rfl, rfl, ?_⟩
  show (genChannels sq _ s.seed lower upper).2.2 = seedAfter s.seed (63 * nch)
  exact genChannels_seed sq _ s.seed lower upper

/-- **C7.** On a non-saturated `compute` call once the warm-up counter
exceeds 50 blocks, every bin of the background-noise estimate follows the
asymmetric IIR on the freshly smoothed capture spectrum — if
`y2_smoothed[k] < n2[k]` then `n2[k]` becomes
`(0.9*y2_smoothed[k] + 0.1*n2[k]) * 1.0002`, otherwise `n2[k] * 1.0002`
— and is then floored at `noise_floor`, the construction-time value
`64 * 10^((90.30899 + noise_floor_dbfs) * 0.1)`, which `compute` never
changes. -/
theorem comfort_noise_iir_and_floor {nch : ℕ}
    (s : ComfortNoiseGenerator nch) (capture_spectrum : Fin nch → ℕ → ℚ)
    (lower upper : Fin nch → FftData) (sq pow10 : ℚ → ℚ)
    (noise_floor_dbfs : ℚ) (hc : 50 < s.n2_counter) (ch : Fin nch) (k : ℕ) :
    (s.compute false capture_spectrum lower upper sq).1.n2 ch k =
      max (if s.y2_smoothed ch k +
            1/10 * (capture_spectrum ch k - s.y2_smoothed ch k) < s.n2 ch k
        then (9/10 * (s.y2_smoothed ch k +
            1/10 * (capture_spectrum ch k - s.y2_smoothed ch k)) +
          1/10 * s.n2 ch k) * (5001/5000)
        else s.n2 ch k * (5001/5000)) s.noise_floor ∧
    (s.compute false capture_spectrum lower upper sq).1.noise_floor =
      s.noise_floor ∧
    (ComfortNoiseGenerator.new pow10 noise_floor_dbfs nch).noise_floor =
      64 * pow10 ((9030899/100000 + noise_floor_dbfs) * (1/10)) := by
  refine ⟨?_, rfl, rfl⟩
  simp only [ComfortNoiseGenerator.compute, Bool.false_eq_true, if_false,
    if_pos hc]

/-- Closed-form witness for `comfort_noise_iir_and_floor`, at a one
channel generator with counter 51 and everything else zero. -/
theorem comfort_noise_iir_and_floor_witness :
    (50 : ℤ) < (51 : ℤ) ∧
    (((⟨42, 0, none, fun _ _ => 0, fun _ _ => 0, 51⟩ :
        ComfortNoiseGenerator 1).compute false (fun _ _ => 0)
        (fun _ => ⟨fun _ => 0, fun _ => 0⟩)
        (fun _ => ⟨fun _ => 0, fun _ => 0⟩) id).1.n2 0 0 =
      max (if (0 : ℚ) + 1/10 * (0 - 0) < 0
        then (9/10 * ((0 : ℚ) + 1/10 * (0 - 0)) + 1/10 * 0) * (5001/5000)
        else (0 : ℚ) * (5001/5000)) 0 ∧
      (((⟨42, 0, none, fun _ _ => 0, fun _ _ => 0, 51⟩ :
        ComfortNoiseGenerator 1).compute false (fun _ _ => 0)
        (fun _ => ⟨fun _ => 0, fun _ => 0⟩)
        (fun _ => ⟨fun _ => 0, fun _ => 0⟩) id).1.noise_floor = 0 ∧
      (ComfortNoiseGenerator.new id 0 1).noise_floor =
        64 * id ((9030899/100000 + 0) * (1/10)))) :=
  ⟨by decide,
   comfort_noise_iir_and_floor
     (⟨42, 0, none, fun _ _ => 0, fun _ _ => 0, 51⟩ :
       ComfortNoiseGenerator 1) (fun _ _ => 0)
     (fun _ => ⟨fun _ => 0, fun _ => 0⟩) (fun _ => ⟨fun _ => 0, fun _ => 0⟩)
     id id 0 (by decide) 0 0⟩

/-- **C6 (amended).** One comfort-noise synthesis step computes
`n[k] = sq(N2[k])` per bin; for each interior bin `1 <= k < 64` it draws
a 5-bit table index through the LCG (`seed * 69069 + 1` masked to 31
bits, then `seed >> 26`), looks up `x = sqrt2*sin` and, 8 entries later
(mod 32), `y = sqrt2*cos`, and writes `lower.re[k] = n[k]*x`,
`lower.im[k] = n[k]*y`; the upper band uses, in place of the per-bin
`n[k]`, the single scalar average of `n[32..65]` — the 33 entries at bins
32 through 64, bin 32 included — and `re` is set to 0 at bins 0 and 64 in
both bands.  The final seed has advanced by the loop's 63 draws. -/
theorem generate_comfort_noise_bins (sq : ℚ → ℚ) (n2 : ℕ → ℚ) (seed : ℕ)
    (lower upper : FftData) (k : ℕ) (h1 : 1 ≤ k) (h64 : k < 64) :
    (generate_comfort_noise sq n2 seed lower upper).2.2 =
      seedAfter seed 63 ∧
    (generate_comfort_noise sq n2 seed lower upper).1.re 0 = 0 ∧
    (generate_comfort_noise sq n2 seed lower upper).1.re 64 = 0 ∧
    (generate_comfort_noise sq n2 seed lower upper).2.1.re 0 = 0 ∧
    (generate_comfort_noise sq n2 seed lower upper).2.1.re 64 = 0 ∧
    (generate_comfort_noise sq n2 seed lower upper).1.re k =
      sq (n2 k) * K_SQRT2_SIN (drawIndex seed k) ∧
    (generate_comfort_noise sq n2 seed lower upper).1.im k =
      sq (n2 k) * K_SQRT2_SIN ((drawIndex seed k + 8) % 32) ∧
    (generate_comfort_noise sq n2 seed lower upper).2.1.re k =
      (∑ j ∈ Finset.Icc 32 64, sq (n2 j)) / 33 *
        K_SQRT2_SIN (drawIndex seed k) ∧
    (generate_comfort_noise sq n2 seed lower upper).2.1.im k =
      (∑ j ∈ Finset.Icc 32 64, sq (n2 j)) / 33 *
        K_SQRT2_SIN ((drawIndex seed k + 8) % 32) := by
  have hlevel : (∑ j ∈ Finset.range 33, sq (n2 (32 + j))) * (1/33) =
      (∑ j ∈ Finset.Icc 32 64, sq (n2 j)) / 33 := by
    rw [show Finset.Icc 32 64 = Finset.Ico 32 65 from (Nat.Ico_succ_right 32 64).symm,
      Finset.sum_Ico_eq_sum_range, show (65:ℕ) - 32 = 33 from rfl]
    ring
  have hne : ¬(k = 0 ∨ k = 64) := by omega
  have hin : 1 ≤ k ∧ k < 64 := ⟨h1, h64⟩
  refine ⟨rfl, ?_, ?_, ?_, ?_, ?_, ?_, ?_, ?_⟩
  · show (if (0:ℕ) = 0 ∨ (0:ℕ) = 64 then (0:ℚ)
      else if 1 ≤ (0:ℕ) ∧ (0:ℕ) < 64 then
        sq (n2 0) * K_SQRT2_SIN (drawIndex seed 0)
      else lower.re 0) = 0
    rw [if_pos (Or.inl rfl)]
  · show (if (64:ℕ) = 0 ∨ (64:ℕ) = 64 then (0:ℚ)
      else if 1 ≤ (64:ℕ) ∧ (64:ℕ) < 64 then
        sq (n2 64) * K_SQRT2_SIN (drawIndex seed 64)
      else lower.re 64) = 0
    rw [if_pos (Or.inr rfl)]
  · show (if (0:ℕ) = 0 ∨ (0:ℕ) = 64 then (0:ℚ)
      else if 1 ≤ (0:ℕ) ∧ (0:ℕ) < 64 then
        (∑ j ∈ Finset.range 33, sq (n2 (32 + j))) * (1/33) *
          K_SQRT2_SIN (drawIndex seed 0)
      else upper.re 0) = 0
    rw [if_pos (Or.inl rfl)]
  · show (if (64:ℕ) = 0 ∨ (64:ℕ) = 64 then (0:ℚ)
      else if 1 ≤ (64:ℕ) ∧ (64:ℕ) < 64 then
        (∑ j ∈ Finset.range 33, sq (n2 (32 + j))) * (1/33) *
          K_SQRT2_SIN (drawIndex seed 64)
      else upper.re 64) = 0
    rw [if_pos (Or.inr rfl)]
  · show (if k = 0 ∨ k = 64 then (0:ℚ)
      else if 1 ≤ k ∧ k < 64 then sq (n2 k) * K_SQRT2_SIN (drawIndex seed k)
      else lower.re k) = sq (n2 k) * K_SQRT2_SIN (drawIndex seed k)
    rw [if_neg hne, if_pos hin]
  · show (if 1 ≤ k ∧ k < 64 then
        sq (n2 k) * K_SQRT2_SIN ((drawIndex seed k + 8) % 32)
      else lower.im k) =
      sq (n2 k) * K_SQRT2_SIN ((drawIndex seed k + 8) % 32)
    rw [if_pos hin]
  · show (if k = 0 ∨ k = 64 then (0:ℚ)
      else if 1 ≤ k ∧ k < 64 then
        (∑ j ∈ Finset.range 33, sq (n2 (32 + j))) * (1/33) *
          K_SQRT2_SIN (drawIndex seed k)
      else upper.re k) =
      (∑ j ∈ Finset.Icc 32 64, sq (n2 j)) / 33 *
        K_SQRT2_SIN (drawIndex seed k)
    rw [if_neg hne, if_pos hin, hlevel]
  · show (if 1 ≤ k ∧ k < 64 then
        (∑ j ∈ Finset.range 33, sq (n2 (32 + j))) * (1/33) *
          K_SQRT2_SIN ((drawIndex seed k + 8) % 32)
      else upper.im k) =
      (∑ j ∈ Finset.Icc 32 64, sq (n2 j)) / 33 *
        K_SQRT2_SIN ((drawIndex seed k + 8) % 32)
    rw [if_pos hin, hlevel]

/-- Closed-form witness for `generate_comfort_noise_bins`, at bin 1 of an
all-zero spectrum. -/
theorem generate_comfort_noise_bins_witness :
    ((1:ℕ) ≤ 1 ∧ (1:ℕ) < 64) ∧
    ((generate_comfort_noise id (fun _ => 0) 0 ⟨fun _ => 0, fun _ => 0⟩
        ⟨fun _ => 1, fun _ => 1⟩).2.2 = seedAfter 0 63 ∧
      (generate_comfort_noise id (fun _ => 0) 0 ⟨fun _ => 0, fun _ => 0⟩
        ⟨fun _ => 1, fun _ => 1⟩).1.re 0 = 0 ∧
      (generate_comfort_noise id (fun _ => 0) 0 ⟨fun _ => 0, fun _ => 0⟩
        ⟨fun _ => 1, fun _ => 1⟩).1.re 64 = 0 ∧
      (generate_comfort_noise id (fun _ => 0) 0 ⟨fun _ => 0, fun _ => 0⟩
        ⟨fun _ => 1, fun _ => 1⟩).2.1.re 0 = 0 ∧
      (generate_comfort_noise id (fun _ => 0) 0 ⟨fun _ => 0, fun _ => 0⟩
        ⟨fun _ => 1, fun _ => 1⟩).2.1.re 64 = 0 ∧
      (generate_comfort_noise id (fun _ => 0) 0 ⟨fun _ => 0, fun _ => 0⟩
        ⟨fun _ => 1, fun _ => 1⟩).1.re 1 =
        0 * K_SQRT2_SIN (drawIndex 0 1) ∧
      (generate_comfort_noise id (fun _ => 0) 0 ⟨fun _ => 0, fun _ => 0⟩
        ⟨fun _ => 1, fun _ => 1⟩).1.im 1 =
        0 * K_SQRT2_SIN ((drawIndex 0 1 + 8) % 32) ∧
      (generate_comfort_noise id (fun _ => 0) 0 ⟨fun _ => 0, fun _ => 0⟩
        ⟨fun _ => 1, fun _ => 1⟩).2.1.re 1 =
        (∑ _j ∈ Finset.Icc 32 64, (0:ℚ)) / 33 *
          K_SQRT2_SIN (drawIndex 0 1) ∧
      (generate_comfort_noise id (fun _ => 0) 0 ⟨fun _ => 0, fun _ => 0⟩
        ⟨fun _ => 1, fun _ => 1⟩).2.1.im 1 =
        (∑ _j ∈ Finset.Icc 32 64, (0:ℚ)) / 33 *
          K_SQRT2_SIN ((drawIndex 0 1 + 8) % 32)) :=
  ⟨by decide,
   generate_comfort_noise_bins id (fun _ => 0) 0 ⟨fun _ => 0, fun _ => 0⟩
     ⟨fun _ => 1, fun _ => 1⟩ 1 (by decide) (by decide)⟩

/-- **C6 (counterexample).** The spec states the upper-band level as the
average of `n[33..65]` (32 entries, bin 32 excluded); the code averages
`n[32..65]` (33 entries, bin 32 included, line 56 of
comfort_noise_generator.rs).  At the spectrum that is 33 at bin 32 and 0
elsewhere, with seed 706566395 (whose first draw hits the nonzero table
entry 1 at index 4), the code writes `upper.re[1] = 1` while the spec's
words give level 0, so the claimed per-bin equality fails. -/
theorem comfort_noise_upper_band_counterexample :
    ¬ ((generate_comfort_noise id (fun k => if k = 32 then (33:ℚ) else 0)
          706566395 ⟨fun _ => 0, fun _ => 0⟩
          ⟨fun _ => 0, fun _ => 0⟩).2.1.re 1 =
        claimed_high_band_level id (fun k => if k = 32 then (33:ℚ) else 0) *
          K_SQRT2_SIN (drawIndex 706566395 1)) := by
  have hidx : drawIndex 706566395 1 = 4 := by decide
  have hx : K_SQRT2_SIN 4 = 1 := by norm_num [K_SQRT2_SIN]
  have hsum : (∑ j ∈ Finset.range 33,
      id (if 32 + j = 32 then (33:ℚ) else 0)) = 33 := by
    have h1 : ∀ j ∈ Finset.range 33,
        id (if 32 + j = 32 then (33:ℚ) else 0) =
          if j = 0 then (33:ℚ) else 0 := by
      intro j hj
      by_cases h : j = 0
      · subst h; norm_num
      · simp [h, show 32 + j ≠ 32 by omega]
    rw [Finset.sum_congr rfl h1,
      Finset.sum_ite_eq' (Finset.range 33) 0 (fun _ => (33:ℚ)),
      if_pos (Finset.mem_range.mpr (by norm_num))]
  have hclaimed : claimed_high_band_level id
      (fun k => if k = 32 then (33:ℚ) else 0) = 0 := by
    unfold claimed_high_band_level
    have hz : (∑ j ∈ Finset.range 32,
        id (if 33 + j = 32 then (33:ℚ) else 0)) = 0 :=
      Finset.sum_eq_zero (fun j hj => by
        simp [show 33 + j ≠ 32 by omega])
    rw [hz]
    ring
  have hcode : (generate_comfort_noise id
      (fun k => if k = 32 then (33:ℚ) else 0) 706566395
      ⟨fun _ => 0, fun _ => 0⟩ ⟨fun _ => 0, fun _ => 0⟩).2.1.re 1 = 1 := by
    show (if (1:ℕ) = 0 ∨ (1:ℕ) = 64 then (0:ℚ)
      else if 1 ≤ (1:ℕ) ∧ (1:ℕ) < 64 then
        (∑ j ∈ Finset.range 33, id (if 32 + j = 32 then (33:ℚ) else 0)) *
          (1/33) * K_SQRT2_SIN (drawIndex 706566395 1)
      else 0) = 1
    rw [if_neg (by decide), if_pos (by decide), hsum, hidx, hx]
    norm_num
  intro h
  rw [hcode, hclaimed] at h
  norm_num at h

/-- Closed-form witness for `subband_erle_six_point_update`. -/
theorem subband_erle_six_point_update_witness :
    erleTestInput.converged_filters 0 = true ∧
    (∀ k, interiorBin k →
      ((((((SubbandErleEstimator.new 1 4 2 true 1).update
        erleTestInput).update erleTestInput).update erleTestInput).update
        erleTestInput).update erleTestInput).erle 0 k = 1) :=
  ⟨rfl,
   (subband_erle_six_point_update 1 4 2 true 1 erleTestInput erleTestInput
     erleTestInput erleTestInput erleTestInput erleTestInput 0 rfl rfl rfl
     rfl rfl rfl _ _ rfl rfl).1⟩

end Aec3

namespace Ns

/-- The per-bin posterior `1 / (1 + gain_prior * e)` lies in `[0, 1]`
whenever the prior lies in `[0.01, 1]` and the inverse-LRT factor `e` is
nonnegative: the gain is then nonnegative and the denominator at
least 1. -/
theorem ns_bin_prob_mem {p e : ℚ} (h1 : 1/100 ≤ p) (h2 : p ≤ 1)
    (he : 0 ≤ e) :
    0 ≤ 1 / (1 + (1 - p) / (p + 1/10000) * e) ∧
      1 / (1 + (1 - p) / (p + 1/10000) * e) ≤ 1 := by
  have hp : (0:ℚ) < p + 1/10000 := by linarith
  have hg : 0 ≤ (1 - p) / (p + 1/10000) :=
    div_nonneg (by linarith) hp.le
  have hge : 0 ≤ (1 - p) / (p + 1/10000) * e := mul_nonneg hg he
  have hd : (0:ℚ) < 1 + (1 - p) / (p + 1/10000) * e := by linarith
  refine ⟨div_nonneg zero_le_one hd.le, ?_⟩
  rw [div_le_one hd]
  linarith

/-- **C9.** After every `SpeechProbabilityEstimator::update` call,
whatever the signal analysis produced for the model and prior-model
features, the scalar prior speech probability lies in `[0.01, 1]` (it is
clamped there) and every element of the per-bin speech-probability
vector lies in `[0, 1]` (the posterior `1/(1 + gain_prior * inv_lrt[k])`
with nonnegative `gain_prior` and nonnegative approximated
`exp(-avg_log_lrt[k])`). -/
theorem speech_probability_ranges (s : SpeechProbabilityEstimator)
    (tanh' expNeg : ℚ → ℚ) (model : SignalModel)
    (prior_model : PriorSignalModel) (hexp : ∀ x, 0 ≤ expNeg x) :
    (1/100 ≤ (s.update tanh' expNeg model prior_model).prior_speech_prob ∧
      (s.update tanh' expNeg model prior_model).prior_speech_prob ≤ 1) ∧
    ∀ k, 0 ≤ (s.update tanh' expNeg model prior_model).speech_probability k ∧
      (s.update tanh' expNeg model prior_model).speech_probability k ≤ 1 := by
  have key : ∀ x : ℚ,
      (1/100 ≤ Aec3.rclamp x (1/100) 1 ∧ Aec3.rclamp x (1/100) 1 ≤ 1) ∧
      ∀ e : ℚ, 0 ≤ e →
        0 ≤ 1 / (1 + (1 - Aec3.rclamp x (1/100) 1) /
            (Aec3.rclamp x (1/100) 1 + 1/10000) * e) ∧
        1 / (1 + (1 - Aec3.rclamp x (1/100) 1) /
            (Aec3.rclamp x (1/100) 1 + 1/10000) * e) ≤ 1 := by
    intro x
    obtain ⟨ha, hb⟩ := Aec3.rclamp_mem x (show (1:ℚ)/100 ≤ 1 by norm_num)
    exact ⟨⟨ha, hb⟩, fun e he => ns_bin_prob_mem ha hb he⟩
  simp only [SpeechProbabilityEstimator.update]
  exact ⟨(key _).1, fun k => (key _).2 _ (hexp _)⟩

/-- Closed-form witness for `speech_probability_ranges`, at the default
estimator with constant-1 inverse-LRT approximation. -/
theorem speech_probability_ranges_witness :
    (∀ x : ℚ, 0 ≤ (fun _ => (1:ℚ)) x) ∧
    ((1/100 ≤ (SpeechProbabilityEstimator.default.update id (fun _ => 1)
        ⟨0, 0, 0, fun _ => 0⟩
        ⟨0, 0, 0, 0, 0, 0⟩).prior_speech_prob ∧
      (SpeechProbabilityEstimator.default.update id (fun _ => 1)
        ⟨0, 0, 0, fun _ => 0⟩
        ⟨0, 0, 0, 0, 0, 0⟩).prior_speech_prob ≤ 1) ∧
    ∀ k, 0 ≤ (SpeechProbabilityEstimator.default.update id (fun _ => 1)
        ⟨0, 0, 0, fun _ => 0⟩
        ⟨0, 0, 0, 0, 0, 0⟩).speech_probability k ∧
      (SpeechProbabilityEstimator.default.update id (fun _ => 1)
        ⟨0, 0, 0, fun _ => 0⟩
        ⟨0, 0, 0, 0, 0, 0⟩).speech_probability k ≤ 1) :=
  ⟨fun _ => by norm_num,
   speech_probability_ranges SpeechProbabilityEstimator.default id
     (fun _ => 1) ⟨0, 0, 0, fun _ => 0⟩ ⟨0, 0, 0, 0, 0, 0⟩
     (fun _ => by norm_num)⟩

end Ns
